import Mathlib

/-
Verification development for the xengine 2D physics library (xphysics crate).
The Rust source is generic over a scalar trait `Real`; the embedding uses ℚ for
the field operations and passes the transcendental operations (sqrt, sin, cos,
pi, epsilon, ...) explicitly through a `RealOps` bundle, mirroring the trait.
Panics (assert!, unwrap, unreachable!, indexing a freed slab slot) are modelled
as `none` in `Option`-returning embeddings.
-/

namespace XPhysics

/-- Bundle of the scalar-trait operations that have no exact ℚ realisation;
mirrors the constants and functions of the `Real` trait in xmath. -/
structure RealOps where
  sqrt : ℚ → ℚ
  sin : ℚ → ℚ
  cos : ℚ → ℚ
  pi : ℚ
  epsilon : ℚ
  maxValue : ℚ
deriving Inhabited

/-- `T::pi_times_2()` -/
def RealOps.piTimes2 (ops : RealOps) : ℚ := 2 * ops.pi

/-- 2-vector, from xmath `Vector2<T>`. -/
structure Vec2 where
  x : ℚ
  y : ℚ
deriving DecidableEq, Repr, Inhabited

instance : Add Vec2 := ⟨fun a b => ⟨a.x + b.x, a.y + b.y⟩⟩
instance : Sub Vec2 := ⟨fun a b => ⟨a.x - b.x, a.y - b.y⟩⟩
instance : Neg Vec2 := ⟨fun a => ⟨-a.x, -a.y⟩⟩
instance : HMul Vec2 ℚ Vec2 := ⟨fun a s => ⟨a.x * s, a.y * s⟩⟩
instance : HSub Vec2 ℚ Vec2 := ⟨fun a s => ⟨a.x - s, a.y - s⟩⟩
instance : HAdd Vec2 ℚ Vec2 := ⟨fun a s => ⟨a.x + s, a.y + s⟩⟩

/-- `Vector2::zero` -/
def Vec2.zero : Vec2 := ⟨0, 0⟩

/-- `Vector2::dot` -/
def Vec2.dot (a b : Vec2) : ℚ := a.x * b.x + a.y * b.y

/-- `Vector2 × Vector2 → T` cross product. -/
def Vec2.cross (a b : Vec2) : ℚ := a.x * b.y - a.y * b.x

/-- `Vector2 × T → Vector2` cross: `(s*a.y, -s*a.x)`. -/
def Vec2.crossS (a : Vec2) (s : ℚ) : Vec2 := ⟨s * a.y, -s * a.x⟩

/-- `T × Vector2 → Vector2` cross: `(-s*a.y, s*a.x)`. -/
def Vec2.scross (s : ℚ) (a : Vec2) : Vec2 := ⟨-s * a.y, s * a.x⟩

/-- `Vector2::length_squared` -/
def Vec2.lengthSquared (a : Vec2) : ℚ := a.x * a.x + a.y * a.y

/-- `Vector2::length` (uses the trait sqrt). -/
def Vec2.length (ops : RealOps) (a : Vec2) : ℚ := ops.sqrt (a.x * a.x + a.y * a.y)

/-- `Vector2::normalize`: divides by the length when it is at least epsilon,
otherwise returns the vector unchanged. -/
def Vec2.normalize (ops : RealOps) (a : Vec2) : Vec2 :=
  let len := a.length ops
  if ops.epsilon ≤ len then
    let invLength := 1 / len
    ⟨a.x * invLength, a.y * invLength⟩
  else a

/-- `Vector2::distance_squared` -/
def Vec2.distanceSquared (a b : Vec2) : ℚ := (a - b).dot (a - b)

/-- `Vector2::distance` -/
def Vec2.distance (ops : RealOps) (a b : Vec2) : ℚ := (a - b).length ops

/-- componentwise min, `Vector2::min` -/
def Vec2.minV (a b : Vec2) : Vec2 := ⟨min a.x b.x, min a.y b.y⟩

/-- componentwise max, `Vector2::max` -/
def Vec2.maxV (a b : Vec2) : Vec2 := ⟨max a.x b.x, max a.y b.y⟩

/-- Rotation stored as a sin/cos pair, from xmath `Rotation<T>`. -/
structure Rot where
  s : ℚ
  c : ℚ
deriving DecidableEq, Repr, Inhabited

/-- `Rotation::new(angle)` = `(sin angle, cos angle)`. -/
def Rot.ofAngle (ops : RealOps) (angle : ℚ) : Rot := ⟨ops.sin angle, ops.cos angle⟩

/-- `Rotation::identity` -/
def Rot.identity : Rot := ⟨0, 1⟩

/-- `Rotation * Vector2` -/
def Rot.mulVec (q : Rot) (v : Vec2) : Vec2 :=
  ⟨q.c * v.x - q.s * v.y, q.s * v.x + q.c * v.y⟩

/-- `Rotation::transpose_multiply(Vector2)` -/
def Rot.tmulVec (q : Rot) (v : Vec2) : Vec2 :=
  ⟨q.c * v.x + q.s * v.y, -q.s * v.x + q.c * v.y⟩

/-- Rigid transform, from xmath `Transform<T>`. -/
structure Transform where
  p : Vec2
  q : Rot
deriving DecidableEq, Repr, Inhabited

/-- `Transform::identity` -/
def Transform.identity : Transform := ⟨Vec2.zero, Rot.identity⟩

/-- `Transform * Vector2` -/
def Transform.mulVec (t : Transform) (v : Vec2) : Vec2 :=
  ⟨(t.q.c * v.x - t.q.s * v.y) + t.p.x, (t.q.s * v.x + t.q.c * v.y) + t.p.y⟩

/-- `Transform::transpose_multiply(Vector2)` -/
def Transform.tmulVec (t : Transform) (v : Vec2) : Vec2 :=
  let px := v.x - t.p.x
  let py := v.y - t.p.y
  ⟨t.q.c * px + t.q.s * py, -t.q.s * px + t.q.c * py⟩

/-- Axis-aligned box, from xmath `AABB<T>`. -/
structure Aabb where
  lower_bound : Vec2
  upper_bound : Vec2
deriving DecidableEq, Repr, Inhabited

/-- `AABB::perimeter` -/
def Aabb.perimeter (a : Aabb) : ℚ :=
  let wx := a.upper_bound.x - a.lower_bound.x
  let wy := a.upper_bound.y - a.lower_bound.y
  wx + wx + wy + wy

/-- `AABB::combine` -/
def Aabb.combine (a b : Aabb) : Aabb :=
  ⟨a.lower_bound.minV b.lower_bound, a.upper_bound.maxV b.upper_bound⟩

/-- `AABB::contains` -/
def Aabb.contains (a b : Aabb) : Bool :=
  decide (a.lower_bound.x ≤ b.lower_bound.x) &&
  decide (a.lower_bound.y ≤ b.lower_bound.y) &&
  decide (b.upper_bound.x ≤ a.upper_bound.x) &&
  decide (b.upper_bound.y ≤ a.upper_bound.y)

/-- `AABB::is_overlap` -/
def Aabb.isOverlap (a b : Aabb) : Bool :=
  let d1 := b.lower_bound - a.upper_bound
  let d2 := a.lower_bound - b.upper_bound
  if d1.x > 0 || d1.y > 0 then false
  else if d2.x > 0 || d2.y > 0 then false
  else true

/-! Settings (settings.rs).  `en1 = 10⁻¹`, `en3 = 10⁻³` from the trait. -/

/-- `settings::aabb_extension` = `T::en1()` = 0.1 -/
def aabbExtension : ℚ := 1 / 10

/-- `settings::aabb_multiplier` = 2 -/
def aabbMultiplier : ℚ := 2

/-- `settings::linear_slop` = `T::en3() * 5` = 0.005 -/
def linearSlop : ℚ := (1 / 1000) * 5

/-- `settings::polygon_radius` = `linear_slop * 2` -/
def polygonRadius : ℚ := linearSlop * 2

/-- `settings::MAX_POLYGON_VERTICES` -/
def MAX_POLYGON_VERTICES : Nat := 8

/-- `settings::MAX_MANIFOLD_POINTS` -/
def MAX_MANIFOLD_POINTS : Nat := 2

/-! Manifold data (collision/mod.rs). -/

/-- `ContactFeatureType` -/
inductive ContactFeatureType where
  | Vertex
  | Face
deriving DecidableEq, Repr, Inhabited

/-- `ContactFeature`: the 4-tuple feature record. -/
structure ContactFeature where
  index_a : Nat
  index_b : Nat
  type_a : ContactFeatureType
  type_b : ContactFeatureType
deriving DecidableEq, Repr, Inhabited

/-- `ContactId` wraps a `ContactFeature`. -/
structure ContactId where
  feature : ContactFeature
deriving DecidableEq, Repr, Inhabited

/-- `ContactId::zero` -/
def ContactId.zero : ContactId := ⟨⟨0, 0, .Vertex, .Vertex⟩⟩

/-- `ManifoldPoint<T>` -/
structure ManifoldPoint where
  local_point : Vec2
  normal_impulse : ℚ
  tangent_impulse : ℚ
  id : ContactId
deriving DecidableEq, Repr, Inhabited

/-- `ManifoldType` -/
inductive ManifoldType where
  | Circles
  | FaceA
  | FaceB
deriving DecidableEq, Repr, Inhabited

/-- `Manifold<T>`: the fixed 2-entry point array is a list of length
`MAX_MANIFOLD_POINTS`; `point_count` prefixes the live entries. -/
structure Manifold where
  points : List ManifoldPoint
  local_normal : Vec2
  local_point : Vec2
  type_ : ManifoldType
  point_count : Nat
deriving DecidableEq, Repr, Inhabited

/-- junk entry standing for a zeroed `ManifoldPoint` slot. -/
def ManifoldPoint.zeroed : ManifoldPoint := ⟨Vec2.zero, 0, 0, ContactId.zero⟩

/-- `Manifold::default()` (`std::mem::zeroed`). -/
def Manifold.zeroed : Manifold :=
  ⟨[ManifoldPoint.zeroed, ManifoldPoint.zeroed], Vec2.zero, Vec2.zero, .Circles, 0⟩

/-! Circle shape and `collide_circles` (collision/collide_circle.rs). -/

/-- `ShapeCircle<T>` -/
structure ShapeCircle where
  position : Vec2
  radius : ℚ
deriving DecidableEq, Repr, Inhabited

/-- `collide_circles` acting on the manifold passed in by `&mut`; the early
return on separation leaves the incoming manifold unchanged. -/
def collideCircles (manifold : Manifold) (circleA : ShapeCircle) (xfA : Transform)
    (circleB : ShapeCircle) (xfB : Transform) : Manifold :=
  let pa := xfA.mulVec circleA.position
  let pb := xfB.mulVec circleB.position
  let d := pb - pa
  let distSqr := d.dot d
  let ra := circleA.radius
  let rb := circleB.radius
  let radius := ra + rb
  if distSqr > radius * radius then manifold
  else
    { manifold with
      type_ := .Circles
      local_point := circleA.position
      local_normal := Vec2.zero
      point_count := 1
      points := manifold.points.set 0 ⟨circleB.position, 0, 0, ContactId.zero⟩ }

/-! Body definitions (dynamic/body.rs) and island velocity integration
(dynamic/island.rs). -/

/-- `BodyType` -/
inductive BodyType where
  | Static
  | Kinematic
  | Dynamic
deriving DecidableEq, Repr, Inhabited

/-- `BodyDef<T, D>` (user payload `D` omitted). -/
structure BodyDef where
  type_ : BodyType
  position : Vec2
  angle : ℚ
  linear_velocity : Vec2
  angular_velocity : ℚ
  linear_damping : ℚ
  angular_damping : ℚ
  allow_sleep : Bool
  awake : Bool
  fixed_rotation : Bool
  bullet : Bool
  active : Bool
  gravity_scale : ℚ
deriving DecidableEq, Repr, Inhabited

/-- `impl Default for BodyDef` -/
def BodyDef.defaultDef : BodyDef where
  type_ := .Static
  position := Vec2.zero
  angle := 0
  linear_velocity := Vec2.zero
  angular_velocity := 0
  linear_damping := 0
  angular_damping := 0
  allow_sleep := true
  awake := true
  fixed_rotation := false
  bullet := false
  active := true
  gravity_scale := 0

/-- `ContactEdge<T, D>`: one node of a per-body contact list.  The pointers
become ids: `other` is the other body, `contact` the contact.  The doubly
linked structure is modelled as the order of the per-body list. -/
structure ContactEdgeM where
  other : Nat
  contact : Nat
deriving DecidableEq, Repr, Inhabited

/-- The dynamics fields of `Body<T, D>` read and written by the claims
(collision filtering, lock contract, velocity integration).  Pointer fields
are replaced by ids and the per-body contact-edge list. -/
structure BodyM where
  type_ : BodyType
  awake : Bool
  xf : Transform
  sweep_c0 : Vec2
  sweep_c : Vec2
  sweep_a0 : ℚ
  sweep_a : ℚ
  linear_velocity_ : Vec2
  angular_velocity_ : ℚ
  force : Vec2
  torque : ℚ
  mass : ℚ
  inv_mass : ℚ
  inv_i : ℚ
  linear_damping : ℚ
  angular_damping : ℚ
  gravity_scale : ℚ
  sleep_time : ℚ
  contact_list : List ContactEdgeM
deriving DecidableEq, Repr, Inhabited

/-- `Body::new(world, def)`: field initialisation (mass is 1 for dynamic
bodies, 0 otherwise; sweep centres start at the position). -/
def bodyNew (ops : RealOps) (def_ : BodyDef) : BodyM :=
  let massPair : ℚ × ℚ := if def_.type_ = .Dynamic then (1, 1) else (0, 0)
  { type_ := def_.type_
    awake := def_.awake
    xf := ⟨def_.position, Rot.ofAngle ops def_.angle⟩
    sweep_c0 := def_.position
    sweep_c := def_.position
    sweep_a0 := def_.angle
    sweep_a := def_.angle
    linear_velocity_ := def_.linear_velocity
    angular_velocity_ := def_.angular_velocity
    force := Vec2.zero
    torque := 0
    mass := massPair.1
    inv_mass := massPair.2
    inv_i := 0
    linear_damping := def_.linear_damping
    angular_damping := def_.angular_damping
    gravity_scale := def_.gravity_scale
    sleep_time := 0
    contact_list := [] }

/-- `Body::set_awake` -/
def BodyM.setAwake (b : BodyM) (flag : Bool) : BodyM :=
  if flag then { b with awake := true, sleep_time := 0 }
  else
    { b with
      awake := false
      sleep_time := 0
      linear_velocity_ := Vec2.zero
      angular_velocity_ := 0
      force := Vec2.zero
      torque := 0 }

/-- `Body::should_collide(other)`: true only when both bodies are dynamic. -/
def BodyM.shouldCollide (b other : BodyM) : Bool :=
  match b.type_, other.type_ with
  | .Dynamic, .Dynamic => true
  | _, _ => false

/-- Velocity integration for one body, from `Island::solve` (the
`v += (force·invMass + gravity·gravityScale)·h` block followed by the
exponential damping). Returns the updated `(v, w)`. -/
def integrateVelocity (b : BodyM) (gravity : Vec2) (h : ℚ) : Vec2 × ℚ :=
  let v := b.linear_velocity_
  let w := b.angular_velocity_
  if b.type_ = .Dynamic then
    let v := v + (b.force * b.inv_mass + gravity * b.gravity_scale) * h
    let w := w + b.inv_i * b.torque * h
    let v := v * (1 / (1 + h * b.linear_damping))
    let w := w * (1 / (1 + h * b.angular_damping))
    (v, w)
  else (v, w)

/-! Dynamic AABB tree (collision/dynamic_tree.rs) over the `slab` crate
allocator.  `none` models a panic: a failed `unwrap`, or indexing a vacant or
out-of-range slab slot. -/

/-- one slot of a `slab::Slab`. -/
inductive SlabEntry (α : Type) where
  | occupied (v : α)
  | vacant (next : Nat)
deriving DecidableEq, Repr

/-- `slab::Slab`: slots plus the head of the vacant free list (`next` is the
slot the next insertion takes; equal to the length when the slab is full). -/
structure SlabM (α : Type) where
  entries : List (SlabEntry α)
  next : Nat
deriving DecidableEq, Repr

/-- `Slab::default()` -/
def SlabM.empty {α : Type} : SlabM α := ⟨[], 0⟩

/-- `Slab::insert`: fill the slot named by `next` (appending when the slab is
full) and advance the free list; a non-vacant slot there is unreachable
(`none`). -/
def SlabM.insert {α : Type} (s : SlabM α) (v : α) : Option (Nat × SlabM α) :=
  let key := s.next
  if key = s.entries.length then
    some (key, ⟨s.entries ++ [.occupied v], key + 1⟩)
  else
    match s.entries.getD key (.vacant 0) with
    | .vacant n => some (key, ⟨s.entries.set key (.occupied v), n⟩)
    | .occupied _ => none

/-- `Slab::index` (panics on a vacant or out-of-range slot). -/
def SlabM.get {α : Type} (s : SlabM α) (i : Nat) : Option α :=
  match s.entries.getD i (.vacant 0) with
  | .occupied v => some v
  | .vacant _ => none

/-- write through `Slab::index_mut` (panics on a vacant slot). -/
def SlabM.setV {α : Type} (s : SlabM α) (i : Nat) (v : α) : Option (SlabM α) :=
  match s.entries.getD i (.vacant 0) with
  | .occupied _ => some ⟨s.entries.set i (.occupied v), s.next⟩
  | .vacant _ => none

/-- `Slab::remove`: vacate the slot and push it on the free list (panics when
already vacant). -/
def SlabM.removeAt {α : Type} (s : SlabM α) (i : Nat) : Option (SlabM α) :=
  match s.entries.getD i (.vacant 0) with
  | .occupied _ => some ⟨s.entries.set i (.vacant s.next), i⟩
  | .vacant _ => none

/-- `Node<T, D>` of the dynamic tree; `data` ids the proxy payload, `link` is
the parent pointer (`link` is also the source's field name). -/
structure TreeNode where
  aabb : Aabb
  data : Option Nat
  link : Option Nat
  child1 : Option Nat
  child2 : Option Nat
  height : Int
deriving DecidableEq, Repr

/-- `Node::is_leaf`: no first child. -/
def TreeNode.isLeaf (n : TreeNode) : Bool := n.child1.isNone

/-- `DynamicTree<T, D>` -/
structure DynTree where
  root : Option Nat
  nodes : SlabM TreeNode
deriving DecidableEq, Repr

/-- `DynamicTree::new` -/
def DynTree.empty : DynTree := ⟨none, SlabM.empty⟩

/-- read `self.nodes[i]`. -/
def DynTree.getNode (t : DynTree) (i : Nat) : Option TreeNode := t.nodes.get i

/-- write `self.nodes[i]`. -/
def DynTree.setNode (t : DynTree) (i : Nat) (n : TreeNode) : Option DynTree :=
  (t.nodes.setV i n).map (fun s => ⟨t.root, s⟩)

/-- read-modify-write of one node. -/
def DynTree.modifyNode (t : DynTree) (i : Nat) (f : TreeNode → TreeNode) :
    Option DynTree := do
  let n ← t.getNode i
  t.setNode i (f n)

/-- `DynamicTree::allocate_node` -/
def DynTree.allocateNode (t : DynTree) (aabb : Aabb) (data : Option Nat)
    (height : Int) : Option (Nat × DynTree) := do
  let (id, s) ← t.nodes.insert ⟨aabb, data, none, none, none, height⟩
  pure (id, ⟨t.root, s⟩)

/-- The shared tail of the `balance > 1` rotation (node `c` rotated above
`a`): child `keep` stays under `c`, child `move` moves under `a` as its
`child2`, then AABBs and heights of `a` and `c` are refreshed.  The source's
taller-child branch is this with `(keep, move) = (f, g)`, the other branch
with `(keep, move) = (g, f)`. -/
def DynTree.balRotC (t : DynTree) (a b c keep move : Nat) : Option (Nat × DynTree) := do
  let t ← t.modifyNode c (fun n => { n with child2 := some keep })
  let t ← t.modifyNode a (fun n => { n with child2 := some move })
  let t ← t.modifyNode move (fun n => { n with link := some a })
  let nb2 ← t.getNode b
  let nmove ← t.getNode move
  let t ← t.modifyNode a (fun n =>
    { n with aabb := nb2.aabb.combine nmove.aabb, height := 1 + max nb2.height nmove.height })
  let na2 ← t.getNode a
  let nkeep ← t.getNode keep
  let t ← t.modifyNode c (fun n =>
    { n with aabb := na2.aabb.combine nkeep.aabb, height := 1 + max na2.height nkeep.height })
  return (c, t)

/-- The shared tail of the `balance < -1` rotation (node `b` rotated above
`a`): child `keep` stays under `b`, child `move` becomes `a`'s `child1`, then
AABBs and heights of `a` and `b` are refreshed.  The source's taller-child
branch is this with `(keep, move) = (d, e)`, the other with `(d, e)`
swapped. -/
def DynTree.balRotB (t : DynTree) (a b c keep move : Nat) : Option (Nat × DynTree) := do
  let t ← t.modifyNode b (fun n => { n with child2 := some keep })
  let t ← t.modifyNode a (fun n => { n with child1 := some move })
  let t ← t.modifyNode move (fun n => { n with link := some a })
  let nc2 ← t.getNode c
  let nmove ← t.getNode move
  let t ← t.modifyNode a (fun n =>
    { n with aabb := nc2.aabb.combine nmove.aabb, height := 1 + max nc2.height nmove.height })
  let na2 ← t.getNode a
  let nkeep ← t.getNode keep
  let t ← t.modifyNode b (fun n =>
    { n with aabb := na2.aabb.combine nkeep.aabb, height := 1 + max na2.height nkeep.height })
  return (b, t)

/-- Replace `a` by `newTop` in its parent (read through `link`, which at this
point in `balance` holds node `a`'s old parent) or at the root. -/
def DynTree.balFixParent (t : DynTree) (a newTop : Nat) (link : Option Nat) :
    Option DynTree :=
  match link with
  | some parent => do
    let np ← t.getNode parent
    if np.child1 = some a then
      t.setNode parent { np with child1 := some newTop }
    else
      t.setNode parent { np with child2 := some newTop }
  | none => pure { t with root := some newTop }

/-- `DynamicTree::balance`: the single-rotation rebalancing step; returns the
node now occupying the subtree root position. -/
def DynTree.balance (t : DynTree) (a : Nat) : Option (Nat × DynTree) := do
  let na ← t.getNode a
  if na.isLeaf || na.height < 2 then
    return (a, t)
  let b ← na.child1
  let c ← na.child2
  let nb ← t.getNode b
  let nc ← t.getNode c
  let bal := nc.height - nb.height
  if bal > 1 then
    let f ← nc.child1
    let g ← nc.child2
    let t ← t.modifyNode c (fun n => { n with child1 := some a, link := na.link })
    let t ← t.modifyNode a (fun n => { n with link := some c })
    let t ← t.balFixParent a c na.link
    let nf ← t.getNode f
    let ng ← t.getNode g
    if nf.height > ng.height then
      t.balRotC a b c f g
    else
      t.balRotC a b c g f
  else if bal < -1 then
    let d ← nb.child1
    let e ← nb.child2
    let t ← t.modifyNode b (fun n => { n with child1 := some a, link := na.link })
    let t ← t.modifyNode a (fun n => { n with link := some b })
    let t ← t.balFixParent a b na.link
    let nd ← t.getNode d
    let ne ← t.getNode e
    if nd.height > ne.height then
      t.balRotB a b c d e
    else
      t.balRotB a b c e d
  else
    return (a, t)

/-- The surface-area-heuristic descent loop of `insert_leaf` (from the root
down to the chosen sibling).  Observe that the source computes `cost2` from
`child1` as well (`let child2_node = &self.nodes[child1]`).  The fuel bounds
the descent by the node count; in a well-formed tree it never runs out. -/
def DynTree.insertLeafDescend (t : DynTree) (leafAabb : Aabb) :
    Nat → Nat → Option Nat
  | 0, _ => none
  | fuel + 1, index => do
    let n ← t.getNode index
    if n.isLeaf then
      return index
    let child1 ← n.child1
    let child2 ← n.child2
    let area := n.aabb.perimeter
    let combinedArea := (n.aabb.combine leafAabb).perimeter
    let cost := combinedArea + combinedArea
    let inheritanceCost := (combinedArea - area) + (combinedArea - area)
    let child1Node ← t.getNode child1
    let cost1 :=
      if child1Node.isLeaf then
        (leafAabb.combine child1Node.aabb).perimeter + inheritanceCost
      else
        ((leafAabb.combine child1Node.aabb).perimeter - child1Node.aabb.perimeter) +
          inheritanceCost
    let child2Node ← t.getNode child1
    let cost2 :=
      if child2Node.isLeaf then
        (leafAabb.combine child2Node.aabb).perimeter + inheritanceCost
      else
        ((leafAabb.combine child2Node.aabb).perimeter - child2Node.aabb.perimeter) +
          inheritanceCost
    if cost < cost1 ∧ cost < cost2 then
      return index
    t.insertLeafDescend leafAabb fuel (if cost1 < cost2 then child1 else child2)

/-- The upward walk shared by `insert_leaf` and `remove_leaf`: balance each
ancestor, refresh its height and AABB from its two children, and follow the
parent link. -/
def DynTree.fixUpLoop (t : DynTree) : Nat → Option Nat → Option DynTree
  | _, none => some t
  | 0, some _ => none
  | fuel + 1, some idx => do
    let (idx2, t) ← t.balance idx
    let n ← t.getNode idx2
    let child1 ← n.child1
    let child2 ← n.child2
    let c1 ← t.getNode child1
    let c2 ← t.getNode child2
    let t ← t.modifyNode idx2 (fun m =>
      { m with height := 1 + max c1.height c2.height, aabb := c1.aabb.combine c2.aabb })
    let n2 ← t.getNode idx2
    t.fixUpLoop fuel n2.link

/-- The attach step of `insert_leaf`: wire `sibling` and `leaf` under the
fresh internal node `newParent`, fixing the old parent's child pointer (or
the root when the sibling was the root). -/
def DynTree.attachLeaf (t : DynTree) (leaf sibling newParent : Nat)
    (oldParent : Option Nat) : Option DynTree := do
  match oldParent with
  | some op => do
    let opn ← t.getNode op
    let t ←
      if opn.child1 = some sibling then
        t.setNode op { opn with child1 := some newParent }
      else
        t.setNode op { opn with child2 := some newParent }
    let t ← t.modifyNode newParent (fun n =>
      { n with child1 := some sibling, child2 := some leaf })
    let t ← t.modifyNode sibling (fun n => { n with link := some newParent })
    t.modifyNode leaf (fun n => { n with link := some newParent })
  | none => do
    let t ← t.modifyNode newParent (fun n =>
      { n with child1 := some sibling, child2 := some leaf })
    let t ← t.modifyNode sibling (fun n => { n with link := some newParent })
    let t ← t.modifyNode leaf (fun n => { n with link := some newParent })
    pure { t with root := some newParent }

/-- `DynamicTree::insert_leaf` -/
def DynTree.insertLeaf (t : DynTree) (leaf : Nat) : Option DynTree := do
  match t.root with
  | none =>
    let t ← t.modifyNode leaf (fun n => { n with link := none })
    return { t with root := some leaf }
  | some rootId =>
    let leafNode ← t.getNode leaf
    let leafAabb := leafNode.aabb
    let sibling ← t.insertLeafDescend leafAabb (t.nodes.entries.length + 1) rootId
    let siblingNode ← t.getNode sibling
    let oldParent := siblingNode.link
    let (newParent, t) ←
      t.allocateNode (leafAabb.combine siblingNode.aabb) none (siblingNode.height + 1)
    let t ← t.modifyNode newParent (fun n => { n with link := oldParent })
    let t ← t.attachLeaf leaf sibling newParent oldParent
    let leafNode2 ← t.getNode leaf
    t.fixUpLoop (t.nodes.entries.length + 1) leafNode2.link

/-- `DynamicTree::create_proxy`: fatten by `AABB_EXTENSION` and insert. -/
def DynTree.createProxy (t : DynTree) (aabb : Aabb) (data : Nat) :
    Option (Nat × DynTree) := do
  let (id, t) ← t.allocateNode
    ⟨aabb.lower_bound - aabbExtension, aabb.upper_bound + aabbExtension⟩ (some data) 0
  let t ← t.insertLeaf id
  return (id, t)

/-- The grandparent branch of `remove_leaf`.  Observe that the source writes
`self.nodes[grand_parent].link = sibling` - pointing the grandparent's own
PARENT field at the sibling - instead of linking the sibling back to the
grandparent, and then walks up from the grandparent through that corrupted
link into the freed parent slot. -/
def DynTree.removeLeafGp (t : DynTree) (parent gp : Nat) (sibling : Option Nat) :
    Option DynTree := do
  let gpn ← t.getNode gp
  let t ←
    if gpn.child1 = some parent then
      t.setNode gp { gpn with child1 := sibling }
    else
      t.setNode gp { gpn with child2 := sibling }
  let t ← t.modifyNode gp (fun n => { n with link := sibling })
  let s ← t.nodes.removeAt parent
  DynTree.fixUpLoop ⟨t.root, s⟩ (s.entries.length + 1) (some gp)

/-- The no-grandparent branch of `remove_leaf`: the sibling becomes the root
and the parent slot is freed. -/
def DynTree.removeLeafAtRoot (t : DynTree) (parent : Nat) (sibling : Option Nat) :
    Option DynTree := do
  let sib ← sibling
  let t ← DynTree.modifyNode ⟨sibling, t.nodes⟩ sib (fun n => { n with link := none })
  let s ← t.nodes.removeAt parent
  return ⟨t.root, s⟩

/-- `DynamicTree::remove_leaf` -/
def DynTree.removeLeaf (t : DynTree) (leaf : Nat) : Option DynTree := do
  if t.root = some leaf then
    return ⟨none, t.nodes⟩
  let leafNode ← t.getNode leaf
  let parent ← leafNode.link
  let parentNode ← t.getNode parent
  let grandParent := parentNode.link
  let sibling :=
    if parentNode.child1 = some leaf then parentNode.child2 else parentNode.child1
  match grandParent with
  | some gp => t.removeLeafGp parent gp sibling
  | none => t.removeLeafAtRoot parent sibling

/-- `DynamicTree::remove_proxy` -/
def DynTree.removeProxy (t : DynTree) (id : Nat) : Option DynTree := do
  let t ← t.removeLeaf id
  let s ← t.nodes.removeAt id
  return ⟨t.root, s⟩

/-- The fresh fat box computed by `move_proxy`.  Observe: BOTH corners are
built from `aabb.lower_bound`, and the two displacement branches (identical
in the source) both extrude the LOWER bound whatever the sign. -/
def moveProxyFatAabb (aabb : Aabb) (displacement : Vec2) : Aabb :=
  let b0 : Aabb := ⟨aabb.lower_bound - aabbExtension, aabb.lower_bound + aabbExtension⟩
  let d := displacement * aabbMultiplier
  let b1 :=
    if d.x < 0 then
      { b0 with lower_bound := ⟨b0.lower_bound.x + d.x, b0.lower_bound.y⟩ }
    else
      { b0 with lower_bound := ⟨b0.lower_bound.x + d.x, b0.lower_bound.y⟩ }
  if d.y < 0 then
    { b1 with lower_bound := ⟨b1.lower_bound.x, b1.lower_bound.y + d.y⟩ }
  else
    { b1 with lower_bound := ⟨b1.lower_bound.x, b1.lower_bound.y + d.y⟩ }

/-- `DynamicTree::move_proxy`: no-op returning `false` when the stored fat
AABB still contains the tight box; otherwise remove, store the fresh
(buggily computed) fat box and reinsert, returning `true`. -/
def DynTree.moveProxy (t : DynTree) (id : Nat) (aabb : Aabb) (displacement : Vec2) :
    Option (Bool × DynTree) := do
  let n ← t.getNode id
  if n.aabb.contains aabb then
    return (false, t)
  let t ← t.removeLeaf id
  let t ← t.modifyNode id (fun n => { n with aabb := moveProxyFatAabb aabb displacement })
  let t ← t.insertLeaf id
  return (true, t)

/-- Modelled from the spec (claim C3 wording, the Box2D reference behaviour):
the stored bound after a successful move is the tight AABB inflated by
`AABB_EXTENSION` on both corners, with each negative component of
`AABB_MULTIPLIER · displacement` added to the lower bound and each positive
component added to the upper bound. -/
def specMoveFatAabb (aabb : Aabb) (displacement : Vec2) : Aabb :=
  let lower := aabb.lower_bound - aabbExtension
  let upper := aabb.upper_bound + aabbExtension
  let d := displacement * aabbMultiplier
  let lower := if d.x < 0 then ⟨lower.x + d.x, lower.y⟩ else lower
  let upper := if d.x < 0 then upper else ⟨upper.x + d.x, upper.y⟩
  let lower := if d.y < 0 then ⟨lower.x, lower.y + d.y⟩ else lower
  let upper := if d.y < 0 then upper else ⟨upper.x, upper.y + d.y⟩
  ⟨lower, upper⟩

/-! World model for the contact manager and the lock contract
(dynamic/contact_manager.rs, dynamic/world.rs, dynamic/fixture.rs,
dynamic/contacts/contact.rs).  Raw pointers become ids into arenas (lists
indexed by position); the intrusive doubly-linked lists become id lists in
allocation order (prepend = list cons). -/

/-- `ShapeType` (collision/shapes/mod.rs). -/
inductive ShapeTypeM where
  | Circle
  | Edge
  | Polygon
  | Chain
deriving DecidableEq, Repr, Inhabited

/-- `Filter` (dynamic/fixture.rs): `category_bits`/`mask_bits` are u16
bitmasks (here Nat under `Nat.land`), `group_index` an i16. -/
structure FilterData where
  category_bits : Nat
  mask_bits : Nat
  group_index : Int
deriving DecidableEq, Repr, Inhabited

/-- `impl Default for Filter` -/
def FilterData.defaultFilter : FilterData := ⟨1, 0xFFFF, 0⟩

/-- The fields of `Fixture<T, D>` consulted by contact creation: owning body
id, shape kind (for the evaluate-fn dispatch), material, filter, sensor bit. -/
structure FixtureM where
  body : Nat
  shape_type : ShapeTypeM
  friction : ℚ
  restitution : ℚ
  filter : FilterData
  is_sensor : Bool
deriving DecidableEq, Repr, Inhabited

/-- `DefaultContactFilter::should_collide`: equal non-zero group indices force
the sign of the group index; otherwise both mask/category bitmask ANDs must be
non-zero. -/
def defaultFilterShouldCollide (fixtureA fixtureB : FixtureM) : Bool :=
  let filterA := fixtureA.filter
  let filterB := fixtureB.filter
  if filterA.group_index = filterB.group_index ∧ filterA.group_index ≠ 0 then
    decide (filterA.group_index > 0)
  else
    decide (Nat.land filterA.mask_bits filterB.category_bits ≠ 0) &&
    decide (Nat.land filterA.category_bits filterB.mask_bits ≠ 0)

/-- `mix_friction` -/
def mixFriction (ops : RealOps) (friction1 friction2 : ℚ) : ℚ :=
  ops.sqrt (friction1 * friction2)

/-- `mix_restitution` -/
def mixRestitution (restitution1 restitution2 : ℚ) : ℚ :=
  max restitution1 restitution2

/-- The per-contact state of `Contact<T, D>` (list pointers and the embedded
edge nodes live in the world model instead). -/
structure ContactM where
  enabled : Bool
  touching : Bool
  fixture_a : Nat
  fixture_b : Nat
  index_a : Nat
  index_b : Nat
  manifold : Manifold
  toi_count : Nat
  toi : ℚ
  friction : ℚ
  restitution : ℚ
  tangent_speed : ℚ
deriving DecidableEq, Repr, Inhabited

/-- `Contact::new`: builds the contact record; the `evaluate_fn` dispatch on
the ordered shape-type pair returns a null pointer (modelled `none`) for any
pair outside the seven supported combinations.  Note the source initialises
the restitution by mixing the two FRICTION values. -/
def contactNew (ops : RealOps) (fixtureA : FixtureM) (faId indexA : Nat)
    (fixtureB : FixtureM) (fbId indexB : Nat) : Option ContactM :=
  match fixtureA.shape_type, fixtureB.shape_type with
  | .Circle, .Circle | .Polygon, .Circle | .Polygon, .Polygon | .Edge, .Circle
  | .Edge, .Polygon | .Chain, .Circle | .Chain, .Polygon =>
    some
      { enabled := true
        touching := false
        fixture_a := faId
        fixture_b := fbId
        index_a := indexA
        index_b := indexB
        manifold := Manifold.zeroed
        toi_count := 0
        toi := 0
        friction := mixFriction ops fixtureA.friction fixtureB.friction
        restitution := mixRestitution fixtureA.friction fixtureB.friction
        tangent_speed := 0 }
  | _, _ => none

/-- `FixtureProxy`: the fields the pair handler reads. -/
structure ProxyM where
  fixture : Nat
  child_index : Nat
deriving DecidableEq, Repr, Inhabited

/-- The world state touched by the contact manager and the structural
mutations: arenas for bodies, fixtures and contacts, the world body and
contact lists (ids, newest first), the counts, and the lock flag.  Broad-phase
proxies and listeners are outside this model. -/
structure WorldM where
  locked : Bool
  bodies : List BodyM
  body_list : List Nat
  body_count : Nat
  fixtures : List FixtureM
  contacts : List ContactM
  contact_list : List Nat
  contact_count : Nat
deriving DecidableEq, Repr, Inhabited

/-- read a body by id. -/
def WorldM.getBody (w : WorldM) (i : Nat) : BodyM := w.bodies.getD i default

/-- write a body by id. -/
def WorldM.setBody (w : WorldM) (i : Nat) (b : BodyM) : WorldM :=
  { w with bodies := w.bodies.set i b }

/-- read a fixture by id. -/
def WorldM.getFixture (w : WorldM) (i : Nat) : FixtureM := w.fixtures.getD i default

/-- read a contact by id. -/
def WorldM.getContact (w : WorldM) (i : Nat) : ContactM := w.contacts.getD i default

/-- `ContactManager::destroy`: unlink the contact from the world list and from
both bodies' edge lists and decrement the count.  The `end_contact` listener
callback and the memory free do not touch modelled state. -/
def contactManagerDestroy (w : WorldM) (cid : Nat) : WorldM :=
  let c := w.getContact cid
  let bodyAId := (w.getFixture c.fixture_a).body
  let bodyBId := (w.getFixture c.fixture_b).body
  let bodyA := w.getBody bodyAId
  let w := w.setBody bodyAId
    { bodyA with contact_list := bodyA.contact_list.filter (fun e => e.contact ≠ cid) }
  let bodyB := w.getBody bodyBId
  let w := w.setBody bodyBId
    { bodyB with contact_list := bodyB.contact_list.filter (fun e => e.contact ≠ cid) }
  { w with
    contact_list := w.contact_list.filter (fun i => i ≠ cid)
    contact_count := w.contact_count - 1 }

/-- The candidate-pair handler of `ContactManager::find_new_contacts` (the
closure passed to `update_pairs`): skip same-body pairs, skip pairs that
already have a contact on body B's edge list in either orientation, apply the
body-level `should_collide` check and the contact filter, then allocate a new
contact, prepend it to the world list and to both bodies' edge lists, and wake
both bodies unless either fixture is a sensor.  `none` models the null-pointer
dereference that follows when `Contact::new` returns null for an unsupported
shape pair. -/
def findNewContactsPair (ops : RealOps) (w : WorldM) (proxyA proxyB : ProxyM) :
    Option WorldM :=
  let fixtureA := w.getFixture proxyA.fixture
  let fixtureB := w.getFixture proxyB.fixture
  let indexA := proxyA.child_index
  let indexB := proxyB.child_index
  let bodyAId := fixtureA.body
  let bodyBId := fixtureB.body
  if bodyAId = bodyBId then some w
  else if (w.getBody bodyBId).contact_list.any (fun edge =>
      edge.other = bodyAId &&
      (let c := w.getContact edge.contact
       (c.fixture_a = proxyA.fixture && c.fixture_b = proxyB.fixture &&
        c.index_a = indexA && c.index_b = indexB) ||
       (c.fixture_a = proxyB.fixture && c.fixture_b = proxyA.fixture &&
        c.index_a = indexB && c.index_b = indexA))) then some w
  else if ¬ (w.getBody bodyBId).shouldCollide (w.getBody bodyAId) then some w
  else if defaultFilterShouldCollide fixtureA fixtureB then some w
  else
    match contactNew ops fixtureA proxyA.fixture indexA fixtureB proxyB.fixture indexB with
    | none => none
    | some c =>
      let cid := w.contacts.length
      let w := { w with
        contacts := w.contacts ++ [c]
        contact_list := cid :: w.contact_list }
      let bodyA := w.getBody bodyAId
      let w := w.setBody bodyAId
        { bodyA with contact_list := (⟨bodyBId, cid⟩ : ContactEdgeM) :: bodyA.contact_list }
      let bodyB := w.getBody bodyBId
      let w := w.setBody bodyBId
        { bodyB with contact_list := (⟨bodyAId, cid⟩ : ContactEdgeM) :: bodyB.contact_list }
      let w :=
        if ¬ fixtureA.is_sensor ∧ ¬ fixtureB.is_sensor then
          let w := w.setBody bodyAId ((w.getBody bodyAId).setAwake true)
          w.setBody bodyBId ((w.getBody bodyBId).setAwake true)
        else w
      some { w with contact_count := w.contact_count + 1 }

/-- `World::destroy_body`: the source asserts that the LOCKED flag IS set
(`assert!(self.0.flags.contains(WorldFlags::LOCKED))`), so the operation
panics (`none`) whenever the world is NOT locked and proceeds while it is
locked.  It then destroys every contact on the body's edge list, unlinks the
body from the world body list and decrements the count.  Fixture-proxy
destruction and the destruction listener act outside the modelled state; the
slab slot free is not observable through this model. -/
def worldDestroyBody (w : WorldM) (id : Nat) : Option WorldM :=
  if ¬ w.locked then none
  else
    let body := w.getBody id
    let w := body.contact_list.foldl (fun w e => contactManagerDestroy w e.contact) w
    some { w with
      body_list := w.body_list.filter (fun i => i ≠ id)
      body_count := w.body_count - 1 }

/-- `Body::reset_mass` for a body with no fixtures (the only case the lock
claim exercises): zero the mass data; for static/kinematic bodies re-anchor
the sweep; for a dynamic body with no mass contribution fall back to unit
mass.  Fixture mass aggregation needs shape geometry outside this model. -/
def BodyM.resetMassNoFixtures (b : BodyM) : BodyM :=
  let b := { b with mass := 0, inv_mass := 0, inv_i := 0 }
  if b.type_ = .Static ∨ b.type_ = .Kinematic then
    { b with sweep_c0 := b.xf.p, sweep_c := b.xf.p, sweep_a0 := b.sweep_a }
  else
    { b with
      mass := 1
      inv_mass := 1
      sweep_c0 := b.xf.mulVec Vec2.zero
      sweep_c := b.xf.mulVec Vec2.zero }

/-- `Body::set_body_type`: asserts the world is NOT locked (`none` when it
is), returns unchanged on an equal type, otherwise sets the type, resets the
mass, zeroes velocities and re-anchors the sweep for a new static body, wakes
the body, clears the force accumulators, destroys every contact on the edge
list and clears it.  The broad-phase `touch_proxy` calls act outside the
modelled state.  The body is `w.getBody id` (assumed fixtureless for the mass
reset). -/
def setBodyTypeW (w : WorldM) (id : Nat) (t : BodyType) : Option WorldM :=
  if w.locked then none
  else
    let b := w.getBody id
    if b.type_ = t then some w
    else
      let b := { b with type_ := t }
      let b := b.resetMassNoFixtures
      let b :=
        if b.type_ = .Static then
          { b with
            linear_velocity_ := Vec2.zero
            angular_velocity_ := 0
            sweep_a0 := b.sweep_a
            sweep_c0 := b.sweep_c }
        else b
      let b := b.setAwake true
      let b := { b with force := Vec2.zero, torque := 0 }
      let w := w.setBody id b
      let w := b.contact_list.foldl (fun w e => contactManagerDestroy w e.contact) w
      let b := w.getBody id
      some (w.setBody id { b with contact_list := [] })

/-! Contact update (dynamic/contacts/contact.rs, `Contact::update`). -/

/-- One manifold point of the freshly evaluated manifold, processed as in the
impulse carry-over loop of `Contact::update`: zero the impulses, then scan the
old manifold (its first `point_count` points, in order) for a point with the
same feature id and copy its impulses, stopping at the first match. -/
def carryPoint (old : Manifold) (p : ManifoldPoint) : ManifoldPoint :=
  match (old.points.take old.point_count).find? (fun q => decide (q.id = p.id)) with
  | some q =>
    { p with normal_impulse := q.normal_impulse, tangent_impulse := q.tangent_impulse }
  | none => { p with normal_impulse := 0, tangent_impulse := 0 }

/-- The `for i in 0..point_count` loop of `Contact::update` over the point
array: entries below `pc` are processed with `carryPoint`, entries beyond are
untouched.  `i` is the index of the head of `ps`. -/
def carryPoints (old : Manifold) (pc : Nat) : Nat → List ManifoldPoint → List ManifoldPoint
  | _, [] => []
  | i, p :: ps =>
    (if i < pc then carryPoint old p else p) :: carryPoints old pc (i + 1) ps

/-- Result state of `Contact::update`: the stored manifold and the flag bits
the function writes (`Enabled`, `Touching`), plus whether the bodies were
woken because the touching state flipped. -/
structure ContactUpdateResult where
  manifold : Manifold
  enabled : Bool
  touching : Bool
  wake : Bool
deriving DecidableEq, Repr

/-- `Contact::update` as a state transformer on the contact-local state.  The
narrow-phase dispatch (`evaluate`) is passed as the function `evalFn` acting
on the stored manifold (which it mutates in place in the source); the sensor
branch receives its `test_overlap` result as `overlapResult`.  Listener
callbacks mutate no modelled state and are omitted. -/
def contactUpdate (sensor : Bool) (overlapResult : Bool)
    (evalFn : Manifold → Manifold) (touching0 : Bool) (m : Manifold) :
    ContactUpdateResult :=
  let old := m
  let wasTouching := touching0
  if sensor then
    let touching := overlapResult
    { manifold := { m with point_count := 0 }
      enabled := true
      touching := touching
      wake := false }
  else
    let m2 := evalFn m
    let touching := decide (m2.point_count > 0)
    let m3 := { m2 with points := carryPoints old m2.point_count 0 m2.points }
    { manifold := m3
      enabled := true
      touching := touching
      wake := touching != wasTouching }

/-- concrete old manifold for the C8 witness: one live point with impulses
(5, 7) under feature id (1,2,Vertex,Face). -/
def oldManifoldW : Manifold :=
  { points := [⟨Vec2.zero, 5, 7, ⟨⟨1, 2, .Vertex, .Face⟩⟩⟩, ManifoldPoint.zeroed]
    local_normal := Vec2.zero
    local_point := Vec2.zero
    type_ := .Circles
    point_count := 1 }

/-- concrete narrow-phase result for the C8 witness: two points, the first
sharing the old feature id, the second fresh. -/
def evalFnW : Manifold → Manifold := fun _ =>
  { points := [⟨⟨1, 0⟩, 9, 9, ⟨⟨1, 2, .Vertex, .Face⟩⟩⟩, ⟨⟨2, 0⟩, 9, 9, ⟨⟨3, 4, .Face, .Vertex⟩⟩⟩]
    local_normal := Vec2.zero
    local_point := Vec2.zero
    type_ := .Circles
    point_count := 2 }

/-- identity-sqrt operation bundle used for concrete evaluations; any bundle
serves since the evaluated paths never consult the transcendental fields. -/
def opsEval : RealOps := ⟨id, id, id, 0, 0, 0⟩

/-- a dynamic, awake, contactless body for the contact-manager evaluations. -/
def dynBodyW : BodyM := bodyNew opsEval { BodyDef.defaultDef with type_ := .Dynamic }

/-- circle fixture on body `bid` with the default collision filter. -/
def circleFixtureW (bid : Nat) : FixtureM :=
  ⟨bid, .Circle, 1 / 5, 0, FilterData.defaultFilter, false⟩

/-- circle fixture on body `bid` whose filter has `mask_bits = 0`, so the
default contact filter rejects any pair containing it. -/
def maskedFixtureW (bid : Nat) : FixtureM :=
  ⟨bid, .Circle, 1 / 5, 0, ⟨1, 0, 0⟩, false⟩

/-- two-body world with default-filter circle fixtures and no contacts. -/
def worldAcceptW : WorldM :=
  { locked := true
    bodies := [dynBodyW, dynBodyW]
    body_list := [1, 0]
    body_count := 2
    fixtures := [circleFixtureW 0, circleFixtureW 1]
    contacts := []
    contact_list := []
    contact_count := 0 }

/-- the same world with mask-zero filters on both fixtures. -/
def worldRejectW : WorldM :=
  { worldAcceptW with fixtures := [maskedFixtureW 0, maskedFixtureW 1] }

/-- a contactless, fixtureless static body world for the lock-contract
evaluations. -/
def worldLockedW : WorldM :=
  { locked := true
    bodies := [bodyNew opsEval BodyDef.defaultDef]
    body_list := [0]
    body_count := 1
    fixtures := []
    contacts := []
    contact_list := []
    contact_count := 0 }

/-- the same world, unlocked. -/
def worldUnlockedW : WorldM := { worldLockedW with locked := false }

/-! GJK distance machinery (collision/distance.rs): proxies, simplex and the
persistent cache. -/

/-- `DistanceProxy<T>`: borrowed vertex list plus radius. -/
structure DistanceProxyM where
  vertices : List Vec2
  radius : ℚ
deriving DecidableEq, Repr, Inhabited

/-- `DistanceProxy::get_support`: index of the vertex with the largest dot
product against `d` (first index wins ties; the source would panic on an
empty proxy, which never occurs for shape-derived proxies). -/
def DistanceProxyM.getSupport (p : DistanceProxyM) (d : Vec2) : Nat :=
  ((List.range (p.vertices.length - 1)).foldl
    (fun (acc : Nat × ℚ) k =>
      let i := k + 1
      let value := (p.vertices.getD i Vec2.zero).dot d
      if value > acc.2 then (i, value) else acc)
    (0, (p.vertices.getD 0 Vec2.zero).dot d)).1

/-- `SimplexVertex<T>` -/
structure SimplexVertexM where
  wa : Vec2
  wb : Vec2
  w : Vec2
  a : ℚ
  index_a : Nat
  index_b : Nat
deriving DecidableEq, Repr, Inhabited

/-- the zeroed simplex vertex (`Default`). -/
def SimplexVertexM.zeroed : SimplexVertexM := ⟨Vec2.zero, Vec2.zero, Vec2.zero, 0, 0, 0⟩

/-- `Simplex<T>`: three vertex slots plus the live count. -/
structure SimplexM where
  v1 : SimplexVertexM
  v2 : SimplexVertexM
  v3 : SimplexVertexM
  count : Nat
deriving DecidableEq, Repr, Inhabited

/-- `Simplex::default()` -/
def SimplexM.defaultSimplex : SimplexM := ⟨.zeroed, .zeroed, .zeroed, 0⟩

/-- slot read for the raw-slice view of the three vertices. -/
def SimplexM.getV (s : SimplexM) (i : Nat) : SimplexVertexM :=
  match i with
  | 0 => s.v1
  | 1 => s.v2
  | _ => s.v3

/-- slot write for the raw-slice view of the three vertices. -/
def SimplexM.setV (s : SimplexM) (i : Nat) (v : SimplexVertexM) : SimplexM :=
  match i with
  | 0 => { s with v1 := v }
  | 1 => { s with v2 := v }
  | _ => { s with v3 := v }

/-- `SimpleCache<T>`: the persistent GJK cache (metric, count, and the two
3-slot index arrays). -/
structure SimpleCacheM where
  metric : ℚ
  count : Nat
  index_a : List Nat
  index_b : List Nat
deriving DecidableEq, Repr, Inhabited

/-- `SimpleCache::default()` -/
def SimpleCacheM.defaultCache : SimpleCacheM := ⟨0, 0, [0, 0, 0], [0, 0, 0]⟩

/-- `Simplex::get_metric`: 0 for a point, edge length for two vertices,
signed double area for three; other counts are `unreachable!()`. -/
def SimplexM.getMetric (ops : RealOps) (s : SimplexM) : Option ℚ :=
  match s.count with
  | 1 => some 0
  | 2 => some (s.v1.w.distance ops s.v2.w)
  | 3 => some ((s.v2.w - s.v1.w).cross (s.v3.w - s.v1.w))
  | _ => none

/-- load one cached vertex pair into a simplex slot (the body of the
`read_cache` copy loop): indices from the cache's arrays, world points
through the two transforms. -/
def readCacheSlot (cache : SimpleCacheM) (proxyA : DistanceProxyM) (xfA : Transform)
    (proxyB : DistanceProxyM) (xfB : Transform) (i : Nat) (v : SimplexVertexM) :
    Option SimplexVertexM := do
  let ia := cache.index_a.getD i 0
  let ib := cache.index_b.getD i 0
  let waLocal ← proxyA.vertices.get? ia
  let wbLocal ← proxyB.vertices.get? ib
  some { v with
    index_a := ia
    index_b := ib
    wa := xfA.mulVec waLocal
    wb := xfB.mulVec wbLocal
    w := xfB.mulVec wbLocal - xfA.mulVec waLocal
    a := 0 }

/-- the fresh single-vertex simplex built by the fallback branch of
`read_cache` (vertex 0 of each proxy). -/
def freshSimplexRead (s : SimplexM) (proxyA : DistanceProxyM) (xfA : Transform)
    (proxyB : DistanceProxyM) (xfB : Transform) : Option SimplexM := do
  let waLocal ← proxyA.vertices.get? 0
  let wbLocal ← proxyB.vertices.get? 0
  some { s with
    v1 := { s.v1 with
      index_a := 0
      index_b := 0
      wa := xfA.mulVec waLocal
      wb := xfB.mulVec wbLocal
      w := xfB.mulVec wbLocal - xfA.mulVec waLocal }
    count := 1 }

/-- `Simplex::read_cache`.  Observe the copy loop of the source: the slice it
walks is built with length `self.count` - the count of the simplex being
initialised, zero for the `Simplex::default()` every caller passes - rather
than `cache.count`, so no cached slot is ever copied; the metric heuristic
(guarded by `self.count > 1`) is dead, and the fallback always rebuilds the
simplex from vertex 0 of each proxy. -/
def SimplexM.readCache (ops : RealOps) (s : SimplexM) (cache : SimpleCacheM)
    (proxyA : DistanceProxyM) (xfA : Transform) (proxyB : DistanceProxyM)
    (xfB : Transform) : Option SimplexM :=
  if ¬ cache.count ≤ 3 then none
  else
    (match s.count with
      | 0 => some s
      | 1 => do
        let v1 ← readCacheSlot cache proxyA xfA proxyB xfB 0 s.v1
        some { s with v1 := v1 }
      | 2 => do
        let v1 ← readCacheSlot cache proxyA xfA proxyB xfB 0 s.v1
        let v2 ← readCacheSlot cache proxyA xfA proxyB xfB 1 s.v2
        some { s with v1 := v1, v2 := v2 }
      | _ => do
        let v1 ← readCacheSlot cache proxyA xfA proxyB xfB 0 s.v1
        let v2 ← readCacheSlot cache proxyA xfA proxyB xfB 1 s.v2
        let v3 ← readCacheSlot cache proxyA xfA proxyB xfB 2 s.v3
        some { s with v1 := v1, v2 := v2, v3 := v3 }).bind
    (fun s =>
      ((if s.count > 1 then do
          let metric1 := cache.metric
          let metric2 ← s.getMetric ops
          if metric2 < (1 / 2 : ℚ) * metric1 ∨ 2 * metric1 < metric2 ∨
              metric2 < ops.epsilon then
            some { s with count := 0 }
          else
            some s
        else some s).bind
      (fun s =>
        if s.count = 0 then freshSimplexRead s proxyA xfA proxyB xfB
        else some s)))

/-- `Simplex::get_search_direction` (sizes 1 and 2; other counts are
`unreachable!()`). -/
def SimplexM.getSearchDirection (s : SimplexM) : Option Vec2 :=
  match s.count with
  | 1 => some (-s.v1.w)
  | 2 =>
    let e12 := s.v2.w - s.v1.w
    let sgn := e12.cross (-s.v1.w)
    if sgn > 0 then some (Vec2.scross 1 e12)
    else some (e12.crossS 1)
  | _ => none

/-- `Simplex::get_witness_points` -/
def SimplexM.getWitnessPoints (s : SimplexM) : Option (Vec2 × Vec2) :=
  match s.count with
  | 1 => some (s.v1.wa, s.v1.wb)
  | 2 => some (s.v1.wa * s.v1.a + s.v2.wa * s.v2.a, s.v1.wb * s.v1.a + s.v2.wb * s.v2.a)
  | 3 =>
    let pa := s.v1.wa * s.v1.a + s.v2.wa * s.v2.a + s.v3.wa * s.v3.a
    some (pa, pa)
  | _ => none

/-- `Simplex::write_cache`: store the metric, the count and the live index
pairs back into the persistent cache. -/
def SimplexM.writeCache (ops : RealOps) (s : SimplexM) (cache : SimpleCacheM) :
    Option SimpleCacheM := do
  let metric ← s.getMetric ops
  let arrays :=
    match s.count with
    | 0 => (cache.index_a, cache.index_b)
    | 1 => (cache.index_a.set 0 s.v1.index_a, cache.index_b.set 0 s.v1.index_b)
    | 2 =>
      ((cache.index_a.set 0 s.v1.index_a).set 1 s.v2.index_a,
       (cache.index_b.set 0 s.v1.index_b).set 1 s.v2.index_b)
    | _ =>
      (((cache.index_a.set 0 s.v1.index_a).set 1 s.v2.index_a).set 2 s.v3.index_a,
       ((cache.index_b.set 0 s.v1.index_b).set 1 s.v2.index_b).set 2 s.v3.index_b)
  some ⟨metric, s.count, arrays.1, arrays.2⟩

/-- `Simplex::solve2`.  Note the source writes `v1.a = T::zero()` in the
first Voronoi-region branch. -/
def SimplexM.solve2 (s : SimplexM) : SimplexM :=
  let w1 := s.v1.w
  let w2 := s.v2.w
  let e12 := w2 - w1
  let d12_2 := -(w1.dot e12)
  if d12_2 ≤ 0 then
    { s with v1 := { s.v1 with a := 0 }, count := 1 }
  else
    let d12_1 := w2.dot e12
    if d12_1 ≤ 0 then
      let v2 := { s.v2 with a := 1 }
      { s with v2 := v2, v1 := v2, count := 1 }
    else
      let invD12 := 1 / (d12_1 + d12_2)
      { s with
        v1 := { s.v1 with a := d12_1 * invD12 }
        v2 := { s.v2 with a := d12_2 * invD12 }
        count := 2 }

/-- `Simplex::solve3`.  Note the source computes `inv_d13` as
`T::zero() / (d13_1 + d13_2)` in the e13 edge branch. -/
def SimplexM.solve3 (s : SimplexM) : SimplexM :=
  let w1 := s.v1.w
  let w2 := s.v2.w
  let w3 := s.v3.w
  let e12 := w2 - w1
  let w1e12 := w1.dot e12
  let w2e12 := w2.dot e12
  let d12_1 := w2e12
  let d12_2 := -w1e12
  let e13 := w3 - w1
  let w1e13 := w1.dot e13
  let w3e13 := w3.dot e13
  let d13_1 := w3e13
  let d13_2 := -w1e13
  let e23 := w3 - w2
  let w2e23 := w2.dot e23
  let w3e23 := w3.dot e23
  let d23_1 := w3e23
  let d23_2 := -w2e23
  let n123 := e12.cross e13
  let d123_1 := n123 * (w2.cross w3)
  let d123_2 := n123 * (w3.cross w1)
  let d123_3 := n123 * (w1.cross w2)
  if d12_2 ≤ 0 ∧ d13_2 ≤ 0 then
    { s with v1 := { s.v1 with a := 1 }, count := 1 }
  else if d12_1 > 0 ∧ d12_2 > 0 ∧ d123_3 ≤ 0 then
    let invD12 := 1 / (d12_1 + d12_2)
    { s with
      v1 := { s.v1 with a := d12_1 * invD12 }
      v2 := { s.v2 with a := d12_2 * invD12 }
      count := 2 }
  else if d13_1 > 0 ∧ d13_2 > 0 ∧ d123_2 ≤ 0 then
    let invD13 := (0 : ℚ) / (d13_1 + d13_2)
    let v3 := { s.v3 with a := d13_2 * invD13 }
    { s with
      v1 := { s.v1 with a := d13_1 * invD13 }
      v3 := v3
      v2 := v3
      count := 2 }
  else if d12_1 ≤ 0 ∧ d23_2 ≤ 0 then
    let v2 := { s.v2 with a := 1 }
    { s with v2 := v2, v1 := v2, count := 1 }
  else if d13_1 ≤ 0 ∧ d23_1 ≤ 0 then
    let v3 := { s.v3 with a := 1 }
    { s with v3 := v3, v1 := v3, count := 1 }
  else if d23_1 > 0 ∧ d23_2 > 0 ∧ d123_1 ≤ 0 then
    let invD23 := 1 / (d23_1 + d23_2)
    let v3 := { s.v3 with a := d23_2 * invD23 }
    { s with
      v2 := { s.v2 with a := d23_1 * invD23 }
      v3 := v3
      v1 := v3
      count := 2 }
  else
    let invD123 := 1 / (d123_1 + d123_2 + d123_3)
    { s with
      v1 := { s.v1 with a := d123_1 * invD123 }
      v2 := { s.v2 with a := d123_2 * invD123 }
      v3 := { s.v3 with a := d123_3 * invD123 }
      count := 3 }

/-- the index pairs of the live simplex vertices saved at the top of each
GJK iteration. -/
def SimplexM.saveList (s : SimplexM) : List (Nat × Nat) :=
  (List.range s.count).map (fun i => ((s.getV i).index_a, (s.getV i).index_b))

/-- outcome of the tail of one GJK iteration: break without an iteration
count bump, break after the bump (duplicate support), or continue. -/
inductive DStep where
  | brk (s : SimplexM)
  | brkIter (s : SimplexM)
  | cont (s : SimplexM)
deriving DecidableEq, Repr

/-- the post-solve tail of one GJK iteration: stop on a full simplex or a
vanishing search direction, otherwise query both supports, write the new
vertex into the next slot, and stop (after the iteration bump) when the pair
repeats a saved one. -/
def distanceInner (ops : RealOps) (proxyA : DistanceProxyM) (xfA : Transform)
    (proxyB : DistanceProxyM) (xfB : Transform) (saves : List (Nat × Nat))
    (s : SimplexM) : Option DStep :=
  if s.count = 3 then some (.brk s)
  else do
    let d ← s.getSearchDirection
    if d.lengthSquared < ops.epsilon * ops.epsilon then some (.brk s)
    else do
      let ia := proxyA.getSupport (xfA.q.tmulVec (-d))
      let va ← proxyA.vertices.get? ia
      let ib := proxyB.getSupport (xfB.q.tmulVec d)
      let vb ← proxyB.vertices.get? ib
      let old := s.getV s.count
      let s2 := s.setV s.count
        { old with
          index_a := ia
          wa := xfA.mulVec va
          index_b := ib
          wb := xfB.mulVec vb
          w := xfB.mulVec vb - xfA.mulVec va }
      if saves.any (fun p => decide (p.1 = ia) && decide (p.2 = ib)) then
        some (.brkIter s2)
      else
        some (.cont { s2 with count := s2.count + 1 })

/-- the main GJK loop of `distance` (`MAX_ITERS = 20` becomes the initial
fuel; `iter` is the running count the output reports). -/
def distanceLoop (ops : RealOps) (proxyA : DistanceProxyM) (xfA : Transform)
    (proxyB : DistanceProxyM) (xfB : Transform) :
    Nat → Nat → SimplexM → Option (SimplexM × Nat)
  | 0, iter, s => some (s, iter)
  | fuel + 1, iter, s =>
    let saves := s.saveList
    let step : Option DStep :=
      match s.count with
      | 1 => some (DStep.brk s)
      | 2 => distanceInner ops proxyA xfA proxyB xfB saves s.solve2
      | 3 => distanceInner ops proxyA xfA proxyB xfB saves s.solve3
      | _ => none
    step.bind
    (fun r =>
      match r with
      | .brk s => some (s, iter)
      | .brkIter s => some (s, iter + 1)
      | .cont s => distanceLoop ops proxyA xfA proxyB xfB fuel (iter + 1) s)

/-- `DistanceInput<T>` -/
structure DistanceInputM where
  proxy_a : DistanceProxyM
  proxy_b : DistanceProxyM
  transform_a : Transform
  transform_b : Transform
  use_radii : Bool
deriving DecidableEq, Repr

/-- `DistanceOutput<T>` -/
structure DistanceOutputM where
  point_a : Vec2
  point_b : Vec2
  distance : ℚ
  iterations : Nat
deriving DecidableEq, Repr

/-- `distance`: initialise the simplex from the cache, iterate GJK, read the
witness points, write the cache back, and optionally retract by the radii. -/
def distanceGJK (ops : RealOps) (input : DistanceInputM) (cache : SimpleCacheM) :
    Option (DistanceOutputM × SimpleCacheM) := do
  let s0 ← SimplexM.readCache ops SimplexM.defaultSimplex cache input.proxy_a
    input.transform_a input.proxy_b input.transform_b
  let r ← distanceLoop ops input.proxy_a input.transform_a input.proxy_b
    input.transform_b 20 0 s0
  let pts ← r.1.getWitnessPoints
  let dist := pts.1.distance ops pts.2
  let cache2 ← r.1.writeCache ops cache
  if input.use_radii then
    let ra := input.proxy_a.radius
    let rb := input.proxy_b.radius
    if dist > ra + rb ∧ dist > ops.epsilon then
      let normal := (pts.2 - pts.1).normalize ops
      some (⟨pts.1 + normal * ra, pts.2 - normal * rb, dist - (ra + rb), r.2⟩, cache2)
    else
      let p := (pts.1 + pts.2) * (1 / 2 : ℚ)
      some (⟨p, p, 0, r.2⟩, cache2)
  else
    some (⟨pts.1, pts.2, dist, r.2⟩, cache2)

/-! Sweeps and time of impact (math/sweep.rs, collision/time_of_impact.rs). -/

/-- `Sweep<T>` -/
structure SweepM where
  local_center : Vec2
  c0 : Vec2
  c : Vec2
  a0 : ℚ
  a : ℚ
  alpha0 : ℚ
deriving DecidableEq, Repr, Inhabited

/-- `Sweep::get_transform(beta)`: interpolate centre and angle, then offset
by the rotated local centre. -/
def SweepM.getTransform (ops : RealOps) (s : SweepM) (beta : ℚ) : Transform :=
  let p := s.c0 * (1 - beta) + s.c * beta
  let angle := (1 - beta) * s.a0 + beta * s.a
  let q := Rot.ofAngle ops angle
  ⟨p - q.mulVec s.local_center, q⟩

/-- `Sweep::advance(alpha)` -/
def SweepM.advance (s : SweepM) (alpha : ℚ) : SweepM :=
  let beta := (alpha - s.alpha0) / (1 - s.alpha0)
  { s with
    c0 := s.c0 + (s.c - s.c0) * beta
    a0 := s.a0 + (s.a - s.a0) * beta
    alpha0 := alpha }

/-- `Sweep::normalize`: subtract the same multiple of 2·pi from both `a0`
and `a`, chosen so `a0` lands in `[0, 2·pi)`. -/
def SweepM.normalize (ops : RealOps) (s : SweepM) : SweepM :=
  let d := ops.piTimes2 * ((⌊s.a0 / ops.piTimes2⌋ : ℤ) : ℚ)
  { s with a0 := s.a0 - d, a := s.a - d }

/-- `SeparationFunctionType` -/
inductive SepFnType where
  | Points
  | FaceA
  | FaceB
deriving DecidableEq, Repr

/-- `SeparationFunction<T>` -/
structure SepFn where
  proxy_a : DistanceProxyM
  proxy_b : DistanceProxyM
  sweep_a : SweepM
  sweep_b : SweepM
  type_ : SepFnType
  local_point : Vec2
  axis : Vec2
deriving DecidableEq, Repr

/-- `SeparationFunction::new`: classify the cached simplex (a point pair, a
face of B when A's two cached indices agree, a face of A otherwise); the
entry assertion requires a cache count of 1 or 2. -/
def SepFn.mk2 (ops : RealOps) (cache : SimpleCacheM) (proxyA : DistanceProxyM)
    (sweepA : SweepM) (proxyB : DistanceProxyM) (sweepB : SweepM) (t1 : ℚ) :
    Option SepFn :=
  if ¬ (0 < cache.count ∧ cache.count < 3) then none
  else
    let xfA := sweepA.getTransform ops t1
    let xfB := sweepB.getTransform ops t1
    if cache.count = 1 then do
      let localPointA ← proxyA.vertices.get? (cache.index_a.getD 0 0)
      let localPointB ← proxyB.vertices.get? (cache.index_b.getD 0 0)
      let axis := (xfB.mulVec localPointB - xfA.mulVec localPointA).normalize ops
      some ⟨proxyA, proxyB, sweepA, sweepB, .Points, Vec2.zero, axis⟩
    else if cache.index_a.getD 0 0 = cache.index_a.getD 1 0 then do
      let localPointB1 ← proxyB.vertices.get? (cache.index_b.getD 0 0)
      let localPointB2 ← proxyB.vertices.get? (cache.index_b.getD 1 0)
      let axis := ((localPointB2 - localPointB1).crossS 1).normalize ops
      let normal := xfB.q.mulVec axis
      let localPoint := (localPointB1 + localPointB2) * (1 / 2 : ℚ)
      let pointB := xfB.mulVec localPoint
      let localPointA ← proxyA.vertices.get? (cache.index_a.getD 0 0)
      let pointA := xfA.mulVec localPointA
      let s := (pointA - pointB).dot normal
      let axis := if s < 0 then -axis else axis
      some ⟨proxyA, proxyB, sweepA, sweepB, .FaceB, localPoint, axis⟩
    else do
      let localPointA1 ← proxyA.vertices.get? (cache.index_a.getD 0 0)
      let localPointA2 ← proxyA.vertices.get? (cache.index_a.getD 1 0)
      let axis := ((localPointA2 - localPointA1).crossS 1).normalize ops
      let normal := xfA.q.mulVec axis
      let localPoint := (localPointA1 + localPointA2) * (1 / 2 : ℚ)
      let pointA := xfA.mulVec localPoint
      let localPointB ← proxyB.vertices.get? (cache.index_b.getD 0 0)
      let pointB := xfB.mulVec localPointB
      let s := (pointB - pointA).dot normal
      let axis := if s < 0 then -axis else axis
      some ⟨proxyA, proxyB, sweepA, sweepB, .FaceA, localPoint, axis⟩

/-- `SeparationFunction::find_min_separation`: the minimising support pair
and its separation at time `t` (the unset index of the face cases stays 0 as
in the source). -/
def SepFn.findMinSeparation (ops : RealOps) (f : SepFn) (t : ℚ) :
    Option (Nat × Nat × ℚ) := do
  let xfA := f.sweep_a.getTransform ops t
  let xfB := f.sweep_b.getTransform ops t
  match f.type_ with
  | .Points => do
    let axisA := xfA.q.tmulVec f.axis
    let axisB := xfB.q.tmulVec (-f.axis)
    let ia := f.proxy_a.getSupport axisA
    let ib := f.proxy_b.getSupport axisB
    let localPointA ← f.proxy_a.vertices.get? ia
    let localPointB ← f.proxy_b.vertices.get? ib
    some (ia, ib, (xfB.mulVec localPointB - xfA.mulVec localPointA).dot f.axis)
  | .FaceA => do
    let normal := xfA.q.mulVec f.axis
    let pointA := xfA.mulVec f.local_point
    let axisB := xfB.q.tmulVec (-normal)
    let ib := f.proxy_b.getSupport axisB
    let localPointB ← f.proxy_b.vertices.get? ib
    some (0, ib, (xfB.mulVec localPointB - pointA).dot normal)
  | .FaceB => do
    let normal := xfB.q.mulVec f.axis
    let pointB := xfB.mulVec f.local_point
    let axisA := xfA.q.tmulVec (-normal)
    let ia := f.proxy_a.getSupport axisA
    let localPointA ← f.proxy_a.vertices.get? ia
    some (ia, 0, (xfA.mulVec localPointA - pointB).dot normal)

/-- `SeparationFunction::evaluate` at a fixed support pair. -/
def SepFn.evaluate (ops : RealOps) (f : SepFn) (ia ib : Nat) (t : ℚ) : Option ℚ := do
  let xfA := f.sweep_a.getTransform ops t
  let xfB := f.sweep_b.getTransform ops t
  match f.type_ with
  | .Points => do
    let localPointA ← f.proxy_a.vertices.get? ia
    let localPointB ← f.proxy_b.vertices.get? ib
    some ((xfB.mulVec localPointB - xfA.mulVec localPointA).dot f.axis)
  | .FaceA => do
    let normal := xfA.q.mulVec f.axis
    let pointA := xfA.mulVec f.local_point
    let localPointB ← f.proxy_b.vertices.get? ib
    some ((xfB.mulVec localPointB - pointA).dot normal)
  | .FaceB => do
    let normal := xfB.q.mulVec f.axis
    let pointB := xfB.mulVec f.local_point
    let localPointA ← f.proxy_a.vertices.get? ia
    some ((xfA.mulVec localPointA - pointB).dot normal)

/-- `TOIOutputState` -/
inductive TOIState where
  | Unknown
  | Failed
  | Overlapped
  | Touching
  | Separated
deriving DecidableEq, Repr

/-- `TOIOutput<T>` -/
structure TOIOutputM where
  state : TOIState
  t : ℚ
deriving DecidableEq, Repr

/-- `TOIInput<T>` -/
structure TOIInputM where
  proxy_a : DistanceProxyM
  proxy_b : DistanceProxyM
  sweep_a : SweepM
  sweep_b : SweepM
  max : ℚ
deriving DecidableEq, Repr

/-- the alternating secant/bisection root finder of the TOI push-back loop:
`some t` when it converges into the tolerance window, `none` when the
iteration cap (`rootCap`, 50 at the call site) stops it with `t2`
unchanged.  `k` is the running `root_iter_count`. -/
def toiRootFind (ops : RealOps) (fcn : SepFn) (ia ib : Nat) (target tol : ℚ)
    (rootCap : Nat) : Nat → Nat → ℚ → ℚ → ℚ → ℚ → Option (Option ℚ)
  | 0, _, _, _, _, _ => some none
  | fuel + 1, k, a1, a2, s1, s2 => do
    let t :=
      if Nat.land k 1 > 0 then a1 + (target - s1) * (a2 - a1) / (s2 - s1)
      else (a1 + a2) * (1 / 2 : ℚ)
    let s ← fcn.evaluate ops ia ib t
    if |s - target| < tol then some (some t)
    else
      if s > target then
        if k + 1 = rootCap then some none
        else toiRootFind ops fcn ia ib target tol rootCap fuel (k + 1) t a2 s s2
      else
        if k + 1 = rootCap then some none
        else toiRootFind ops fcn ia ib target tol rootCap fuel (k + 1) a1 t s1 s

/-- outcome of the TOI push-back loop: a final output, or continue the outer
loop with an updated `t1`. -/
inductive ToiInnerRes where
  | out (o : TOIOutputM)
  | cont (t1 : ℚ)
deriving DecidableEq, Repr

/-- the TOI push-back loop (fuel = `MAX_POLYGON_VERTICES` at the call site;
running out leaves `t1` unchanged for the next outer iteration). -/
def toiInnerLoop (ops : RealOps) (fcn : SepFn) (target tol maxT : ℚ)
    (rootCap : Nat) : Nat → ℚ → ℚ → Option ToiInnerRes
  | 0, t1, _ => some (.cont t1)
  | fuel + 1, t1, t2 => do
    let m ← fcn.findMinSeparation ops t2
    let s2 := m.2.2
    if s2 > target + tol then some (.out ⟨.Separated, maxT⟩)
    else if s2 > target - tol then some (.cont t2)
    else do
      let s1 ← fcn.evaluate ops m.1 m.2.1 t1
      if s1 < target - tol then some (.out ⟨.Failed, t1⟩)
      else if s1 ≤ target + tol then some (.out ⟨.Touching, t1⟩)
      else do
        let r ← toiRootFind ops fcn m.1 m.2.1 target tol rootCap rootCap 0 t1 t2 s1 s2
        let t2n := match r with | some t => t | none => t2
        toiInnerLoop ops fcn target tol maxT rootCap fuel t1 t2n

/-- outcome of one outer TOI iteration: a final output, or continue with the
updated cache and `t1`. -/
inductive ToiOuterRes where
  | out (o : TOIOutputM)
  | cont (cache : SimpleCacheM) (t1 : ℚ)
deriving DecidableEq, Repr

/-- one outer TOI iteration: a distance query at `t1` (overlap / touching
exits), then a separation function from the cache driving the push-back
loop. -/
def toiOuterBody (ops : RealOps) (proxyA proxyB : DistanceProxyM)
    (sweepA sweepB : SweepM) (target tol maxT : ℚ) (pushCap rootCap : Nat)
    (cache : SimpleCacheM) (t1 : ℚ) : Option ToiOuterRes := do
  let xfA := sweepA.getTransform ops t1
  let xfB := sweepB.getTransform ops t1
  let d ← distanceGJK ops ⟨proxyA, proxyB, xfA, xfB, false⟩ cache
  if d.1.distance ≤ 0 then some (.out ⟨.Overlapped, 0⟩)
  else if d.1.distance < target + tol then some (.out ⟨.Touching, t1⟩)
  else do
    let fcn ← SepFn.mk2 ops d.2 proxyA sweepA proxyB sweepB t1
    let r ← toiInnerLoop ops fcn target tol maxT rootCap pushCap t1 maxT
    match r with
    | .out o => some (.out o)
    | .cont t1n => some (.cont d.2 t1n)

/-- the outer conservative-advancement loop (fuel = `MAX_ITERATIONS` = 20 at
the call site); when the fuel after an iteration is spent the state is
`Failed` with the best `t1` found so far. -/
def toiOuterLoop (ops : RealOps) (proxyA proxyB : DistanceProxyM)
    (sweepA sweepB : SweepM) (target tol maxT : ℚ) (pushCap rootCap : Nat) :
    Nat → SimpleCacheM → ℚ → Option TOIOutputM
  | 0, _, t1 => some ⟨.Failed, t1⟩
  | fuel + 1, cache, t1 => do
    let r ← toiOuterBody ops proxyA proxyB sweepA sweepB target tol maxT
      pushCap rootCap cache t1
    match r with
    | .out o => some o
    | .cont cache2 t1n =>
      if fuel = 0 then some ⟨.Failed, t1n⟩
      else
        toiOuterLoop ops proxyA proxyB sweepA sweepB target tol maxT
          pushCap rootCap fuel cache2 t1n

/-- `time_of_impact`: normalize both sweeps, set
`target = max(linearSlop, totalRadius - 3·linearSlop)` and
`tolerance = 0.25·linearSlop` (asserting target > tolerance), then run the
outer loop with a fresh distance cache from `t1 = 0`. -/
def timeOfImpact (ops : RealOps) (input : TOIInputM) : Option TOIOutputM :=
  let sweepA := input.sweep_a.normalize ops
  let sweepB := input.sweep_b.normalize ops
  let totalRadius := input.proxy_a.radius + input.proxy_b.radius
  let target := max linearSlop (totalRadius - 3 * linearSlop)
  let tolerance := (1 / 4 : ℚ) * linearSlop
  if ¬ target > tolerance then none
  else
    toiOuterLoop ops input.proxy_a input.proxy_b sweepA sweepB target tolerance
      input.max MAX_POLYGON_VERTICES 50 20 SimpleCacheM.defaultCache 0

/-- persistent cache for the C5 evaluation: two cached vertex pairs (1,0) and
(2,1) whose metric (under the identity-sqrt bundle) equals the stored 5, so
the drop heuristic of the claim would KEEP this simplex. -/
def cacheC5 : SimpleCacheM := ⟨5, 2, [1, 2, 0], [0, 1, 0]⟩

/-- triangle proxy for the C5 evaluation. -/
def proxyC5A : DistanceProxyM := ⟨[⟨0, 0⟩, ⟨1, 0⟩, ⟨0, 1⟩], 0⟩

/-- segment proxy for the C5 evaluation. -/
def proxyC5B : DistanceProxyM := ⟨[⟨2, 0⟩, ⟨3, 0⟩], 0⟩

/-! Polygon construction (collision/shapes/polygon.rs, `Polygon::new`). -/

/-- `Polygon<T>`: centroid, the 8-slot vertex and normal arrays (as lists of
length `MAX_POLYGON_VERTICES`), and the live count. -/
structure PolygonM where
  centroid : Vec2
  vertices : List Vec2
  normals : List Vec2
  count : Nat
deriving DecidableEq, Repr

/-- `Polygon::new_box_center` -/
def polygonNewBoxCenter (hx hy : ℚ) : PolygonM where
  centroid := Vec2.zero
  vertices := [⟨-hx, -hy⟩, ⟨hx, -hy⟩, ⟨hx, hy⟩, ⟨-hx, hy⟩,
    Vec2.zero, Vec2.zero, Vec2.zero, Vec2.zero]
  normals := [⟨0, -1⟩, ⟨1, 0⟩, ⟨0, 1⟩, ⟨-1, 0⟩,
    Vec2.zero, Vec2.zero, Vec2.zero, Vec2.zero]
  count := 4

/-- `Polygon::compute_centroid` (asserts at least three vertices; the ℚ model
returns zero where the float code would divide by a zero area). -/
def computeCentroid (vertices : List Vec2) : Option Vec2 :=
  if ¬ 3 ≤ vertices.length then none
  else
    let inv3 : ℚ := 1 / 3
    let acc := (List.range vertices.length).foldl
      (fun (acc : Vec2 × ℚ) i =>
        let p1 := Vec2.zero
        let p2 := vertices.getD i Vec2.zero
        let p3 :=
          if i + 1 < vertices.length then vertices.getD (i + 1) Vec2.zero
          else vertices.getD 0 Vec2.zero
        let e1 := p2 - p1
        let e2 := p3 - p1
        let d := e1.cross e2
        let triangleArea := (1 / 2 : ℚ) * d
        (acc.1 + (p1 + p2 + p3) * triangleArea * inv3, acc.2 + triangleArea))
      (Vec2.zero, 0)
    some (acc.1 * (1 / acc.2))

/-- one step of the duplicate-welding pass of `Polygon::new`: keep vertex `i`
unless it is within half a linear slop of an already kept one. -/
def weldStep (vertices : List Vec2) (ps : List Vec2) (i : Nat) : List Vec2 :=
  let v := vertices.getD i Vec2.zero
  let unique := ¬ ps.any (fun u =>
    decide (v.distanceSquared u <
      ((1 / 2 : ℚ) * linearSlop) * ((1 / 2 : ℚ) * linearSlop)))
  if unique then ps ++ [v] else ps

/-- The duplicate-welding pass of `Polygon::new` over the first `n` input
vertices. -/
def weldVertices (vertices : List Vec2) (n : Nat) : List Vec2 :=
  (List.range n).foldl (weldStep vertices) []

/-- The rightmost-lowest start-vertex scan of `Polygon::new`. -/
def rightmostIndex (ps : List Vec2) (n : Nat) : Nat :=
  ((List.range (n - 1)).foldl
    (fun (acc : Nat × ℚ) k =>
      let i := k + 1
      let x := (ps.getD i Vec2.zero).x
      if x > acc.2 ∨ (x = acc.2 ∧ (ps.getD i Vec2.zero).y < (ps.getD acc.1 Vec2.zero).y)
      then (i, x) else acc)
    (0, (ps.getD 0 Vec2.zero).x)).1

/-- The inner `j` scan of the gift-wrapping loop: starting from candidate
`ie = 0`, visit `j = 1, ..` (`rem` values), skipping `j` into `ie` when the
candidate equals the hull vertex, otherwise advancing the candidate on a
negative cross product or a longer collinear edge. -/
def hullScan (ps : List Vec2) (base : Vec2) (ih : Nat) : Nat → Nat → Nat → Nat
  | 0, _, ie => ie
  | rem + 1, j, ie =>
    if ie = ih then hullScan ps base ih rem (j + 1) j
    else
      let r := ps.getD ie Vec2.zero - base
      let v := ps.getD j Vec2.zero - base
      let c := r.cross v
      let ie2 := if c < 0 then j else ie
      let ie3 := if c = 0 ∧ v.lengthSquared > r.lengthSquared then j else ie2
      hullScan ps base ih rem (j + 1) ie3

/-- The gift-wrapping hull loop of `Polygon::new`.  The fuel realises the
in-loop `assert!(m < MAX_POLYGON_VERTICES)` (`none` on failure).  Observe the
termination test of the source: the next hull index is compared with the
LITERAL 10 (`if ie == 10`), not with the start index `i0`. -/
def hullLoop (ps : List Vec2) (n : Nat) : Nat → Nat → List Nat → Option (List Nat)
  | 0, _, _ => none
  | fuel + 1, ih, hull =>
    let hull2 := hull ++ [ih]
    let base := ps.getD ih Vec2.zero
    let ie := hullScan ps base ih (n - 1) 1 0
    if ie = 10 then some hull2
    else hullLoop ps n fuel ie hull2

/-- `Polygon::new`: assert 3..=8 input vertices (with the dead `< 3` box
fallback kept), weld duplicates, pick the rightmost start, gift-wrap the
hull, then build vertices, edge normals and the centroid. -/
def polygonNew (ops : RealOps) (vertices : List Vec2) : Option PolygonM :=
  if ¬ (3 ≤ vertices.length ∧ vertices.length ≤ MAX_POLYGON_VERTICES) then none
  else if vertices.length < 3 then some (polygonNewBoxCenter 1 1)
  else
    let n := min vertices.length MAX_POLYGON_VERTICES
    let ps := weldVertices vertices n
    let n2 := ps.length
    if n2 < 3 then none
    else
      let i0 := rightmostIndex ps n2
      match hullLoop ps n2 MAX_POLYGON_VERTICES i0 [] with
      | none => none
      | some hull =>
        let m := hull.length
        if m < 3 then none
        else
          let verts := hull.map (fun i => ps.getD i Vec2.zero)
          let normals := (List.range m).map (fun i =>
            let i2 := if i + 1 < m then i + 1 else 0
            let edge := verts.getD i2 Vec2.zero - verts.getD i Vec2.zero
            (edge.crossS 1).normalize ops)
          match computeCentroid verts with
          | none => none
          | some centroid =>
            some
              { centroid := centroid
                vertices := verts ++ List.replicate (MAX_POLYGON_VERTICES - m) Vec2.zero
                normals := normals ++ List.replicate (MAX_POLYGON_VERTICES - m) Vec2.zero
                count := m }

/-- the tree after one `createProxy` of the tight box [(0,0),(1,1)]: a single
root leaf holding the fattened box. -/
def treeOneProxy : DynTree :=
  ⟨some 0, ⟨[.occupied ⟨⟨⟨-1/10, -1/10⟩, ⟨11/10, 11/10⟩⟩, some 0, none, none, none, 0⟩], 1⟩⟩

/-- scalar operations for the TOI evaluation: exact square root on the
squares that arise, zero sine and unit cosine (all angles in the run are
zero), pi = 3, zero epsilon. -/
def opsW9 : RealOps := ⟨id, fun _ => 0, fun _ => 1, 3, 0, 0⟩

/-- single-vertex proxy at the origin with radius 203/400. -/
def proxyW9A : DistanceProxyM := ⟨[⟨0, 0⟩], 203 / 400⟩

/-- single-vertex proxy at (2,0) in its own frame (via the sweep), radius
203/400. -/
def proxyW9B : DistanceProxyM := ⟨[⟨0, 0⟩], 203 / 400⟩

/-- stationary sweep at the origin. -/
def sweepW9A : SweepM := ⟨Vec2.zero, Vec2.zero, Vec2.zero, 0, 0, 0⟩

/-- stationary sweep at (2,0). -/
def sweepW9B : SweepM := ⟨Vec2.zero, ⟨2, 0⟩, ⟨2, 0⟩, 0, 0, 0⟩

/-- sweep with angles a0 = 7, a = 9 for the angle-folding instance. -/
def sweepW9f : SweepM := ⟨Vec2.zero, Vec2.zero, Vec2.zero, 7, 9, 0⟩

/-- the cache written back by the distance call of the first TOI outer
iteration on the witness inputs. -/
def cacheW9 : SimpleCacheM := ⟨0, 1, [0, 0, 0], [0, 0, 0]⟩

end XPhysics

open XPhysics

theorem Vec2.add_def (a b : Vec2) : a + b = ⟨a.x + b.x, a.y + b.y⟩ := rfl

theorem Vec2.sub_def (a b : Vec2) : a - b = ⟨a.x - b.x, a.y - b.y⟩ := rfl

theorem Vec2.neg_def (a : Vec2) : -a = ⟨-a.x, -a.y⟩ := rfl

theorem Vec2.mulS_def (a : Vec2) (s : ℚ) : a * s = ⟨a.x * s, a.y * s⟩ := rfl

theorem Vec2.subS_def (a : Vec2) (s : ℚ) : a - s = ⟨a.x - s, a.y - s⟩ := rfl

theorem Vec2.addS_def (a : Vec2) (s : ℚ) : a + s = ⟨a.x + s, a.y + s⟩ := rfl

/-- Claim C10: a default-constructed `BodyDef` carries gravity scale 0, a body
built from such a def keeps gravity scale 0, and for any body whose gravity
scale is 0 the velocity-integration step of `Island::solve` is independent of
the world gravity vector (so gravity affects a body only when a non-zero
gravity scale is set explicitly). -/
theorem C10_default_gravity_scale_zero :
    BodyDef.defaultDef.gravity_scale = 0 ∧
    (∀ (ops : RealOps) (d : BodyDef), d.gravity_scale = 0 →
      (bodyNew ops d).gravity_scale = 0) ∧
    (∀ (b : BodyM) (g g' : Vec2) (h : ℚ), b.gravity_scale = 0 →
      integrateVelocity b g h = integrateVelocity b g' h) := by
  refine ⟨rfl, ?_, ?_⟩
  · intro ops d hd
    simp [bodyNew, hd]
  · intro b g g' h hb
    unfold integrateVelocity
    cases hbt : b.type_ <;>
      simp [hbt, hb, Vec2.mulS_def, Vec2.add_def, mul_zero, add_zero]

/-- Witness for C10: evaluates the theorem at a default-def dynamic body under
two different gravity vectors. -/
theorem C10_default_gravity_scale_zero_witness :
    (bodyNew ⟨id, id, id, 0, 0, 0⟩
        { BodyDef.defaultDef with type_ := .Dynamic }).gravity_scale = 0 ∧
    integrateVelocity
        (bodyNew ⟨id, id, id, 0, 0, 0⟩ { BodyDef.defaultDef with type_ := .Dynamic })
        ⟨0, -10⟩ (1 / 60) =
      integrateVelocity
        (bodyNew ⟨id, id, id, 0, 0, 0⟩ { BodyDef.defaultDef with type_ := .Dynamic })
        ⟨3, 4⟩ (1 / 60) := by
  constructor
  · exact C10_default_gravity_scale_zero.2.1 ⟨id, id, id, 0, 0, 0⟩
      { BodyDef.defaultDef with type_ := .Dynamic } rfl
  · exact C10_default_gravity_scale_zero.2.2
      (bodyNew ⟨id, id, id, 0, 0, 0⟩ { BodyDef.defaultDef with type_ := .Dynamic })
      ⟨0, -10⟩ ⟨3, 4⟩ (1 / 60) (by decide)

theorem carryPoints_getD (old : Manifold) (pc : Nat) :
    ∀ (ps : List ManifoldPoint) (start i : Nat), i < ps.length →
      (carryPoints old pc start ps).getD i ManifoldPoint.zeroed =
        (if start + i < pc then carryPoint old (ps.getD i ManifoldPoint.zeroed)
         else ps.getD i ManifoldPoint.zeroed) := by
  intro ps
  induction ps with
  | nil => intro start i h; simp at h
  | cons p rest ih =>
    intro start i h
    cases i with
    | zero => simp [carryPoints]
    | succ j =>
      have hj : j < rest.length := by simpa using h
      have := ih (start + 1) j hj
      simp only [carryPoints, List.getD_cons_succ]
      rw [this]
      have harith : start + 1 + j = start + (j + 1) := by omega
      rw [harith]

/-- Claim C8: after `Contact::update` on a non-sensor contact, every new
manifold point keeps its feature id; a point whose id matches some point of
the old manifold (its live prefix) carries that old point's normal and
tangent impulses, and every other point has both impulses zero; the touching
flag stored afterwards equals (point count of the new manifold > 0). -/
theorem C8_update_impulse_carryover
    (evalFn : Manifold → Manifold) (old : Manifold) (touching0 : Bool)
    (hlen : (evalFn old).point_count ≤ (evalFn old).points.length) :
    ((contactUpdate false false evalFn touching0 old).touching
        = decide (0 < (contactUpdate false false evalFn touching0 old).manifold.point_count)) ∧
    (∀ i, i < (evalFn old).point_count →
      (((contactUpdate false false evalFn touching0 old).manifold.points.getD i
            ManifoldPoint.zeroed).id
          = ((evalFn old).points.getD i ManifoldPoint.zeroed).id) ∧
      ((∃ q ∈ old.points.take old.point_count,
          q.id = ((evalFn old).points.getD i ManifoldPoint.zeroed).id ∧
          ((contactUpdate false false evalFn touching0 old).manifold.points.getD i
              ManifoldPoint.zeroed).normal_impulse = q.normal_impulse ∧
          ((contactUpdate false false evalFn touching0 old).manifold.points.getD i
              ManifoldPoint.zeroed).tangent_impulse = q.tangent_impulse) ∨
        ((∀ q ∈ old.points.take old.point_count,
            q.id ≠ ((evalFn old).points.getD i ManifoldPoint.zeroed).id) ∧
          ((contactUpdate false false evalFn touching0 old).manifold.points.getD i
              ManifoldPoint.zeroed).normal_impulse = 0 ∧
          ((contactUpdate false false evalFn touching0 old).manifold.points.getD i
              ManifoldPoint.zeroed).tangent_impulse = 0))) := by
  constructor
  · simp [contactUpdate]
  · intro i hi
    have hilen : i < (evalFn old).points.length := lt_of_lt_of_le hi hlen
    have hget :
        (contactUpdate false false evalFn touching0 old).manifold.points.getD i
            ManifoldPoint.zeroed =
          carryPoint old ((evalFn old).points.getD i ManifoldPoint.zeroed) := by
      show (carryPoints old (evalFn old).point_count 0 (evalFn old).points).getD i
          ManifoldPoint.zeroed = _
      rw [carryPoints_getD old (evalFn old).point_count (evalFn old).points 0 i hilen]
      simp [hi]
    rw [hget]
    unfold carryPoint
    cases hfind : (old.points.take old.point_count).find?
        (fun q => decide (q.id = ((evalFn old).points.getD i ManifoldPoint.zeroed).id)) with
    | none =>
      refine ⟨rfl, Or.inr ⟨?_, rfl, rfl⟩⟩
      intro q hq
      have := List.find?_eq_none.mp hfind q hq
      simpa using this
    | some q =>
      have hmem : q ∈ old.points.take old.point_count := List.mem_of_find?_eq_some hfind
      have hid : q.id = ((evalFn old).points.getD i ManifoldPoint.zeroed).id := by
        have := List.find?_some hfind
        simpa using this
      exact ⟨rfl, Or.inl ⟨q, hmem, hid, rfl, rfl⟩⟩

/-- Witness for C8 at a concrete update: a two-point evaluation against a
one-point old manifold. -/
theorem C8_update_impulse_carryover_witness :
    ((contactUpdate false false evalFnW false oldManifoldW).touching
        = decide (0 < (contactUpdate false false evalFnW false oldManifoldW).manifold.point_count)) ∧
    (((contactUpdate false false evalFnW false oldManifoldW).manifold.points.getD 0
          ManifoldPoint.zeroed).id
        = ((evalFnW oldManifoldW).points.getD 0 ManifoldPoint.zeroed).id) ∧
    (((contactUpdate false false evalFnW false oldManifoldW).manifold.points.getD 1
          ManifoldPoint.zeroed).id
        = ((evalFnW oldManifoldW).points.getD 1 ManifoldPoint.zeroed).id) := by
  refine ⟨(C8_update_impulse_carryover evalFnW oldManifoldW false (by norm_num [evalFnW])).1,
    ((C8_update_impulse_carryover evalFnW oldManifoldW false (by norm_num [evalFnW])).2 0
      (by norm_num [evalFnW])).1,
    ((C8_update_impulse_carryover evalFnW oldManifoldW false (by norm_num [evalFnW])).2 1
      (by norm_num [evalFnW])).1⟩

/-- Claim C6 as stated is false on the code: `collide_circles` returns early
on separated circles without writing `point_count = 0`, so a stale manifold
keeps its previous point count.  Concretely, circles of radius 1 at distance
10 with an incoming one-point manifold produce a manifold that still reports
one point. -/
theorem C6_counterexample :
    (collideCircles
        { Manifold.zeroed with point_count := 1 }
        ⟨Vec2.zero, 1⟩ Transform.identity
        ⟨⟨10, 0⟩, 1⟩ Transform.identity).point_count = 1 ∧
    (collideCircles
        { Manifold.zeroed with point_count := 1 }
        ⟨Vec2.zero, 1⟩ Transform.identity
        ⟨⟨10, 0⟩, 1⟩ Transform.identity) =
      { Manifold.zeroed with point_count := 1 } := by
  constructor <;>
    norm_num [collideCircles, Transform.mulVec, Transform.identity, Rot.identity,
      Vec2.dot, Vec2.sub_def, Vec2.zero, Manifold.zeroed]

/-- Claim C1 fails on the code: in `find_new_contacts` the early return fires
when the contact filter ACCEPTS a pair (the negation present in the body-level
check is missing), so a pair of distinct dynamic bodies with default filters -
accepted by both checks - produces no contact, while the same pair with
mask-zero filters - rejected by the filter - does produce one. -/
theorem C1_filter_inversion_eval :
    defaultFilterShouldCollide (circleFixtureW 0) (circleFixtureW 1) = true ∧
    (worldAcceptW.getBody 1).shouldCollide (worldAcceptW.getBody 0) = true ∧
    findNewContactsPair opsEval worldAcceptW ⟨0, 0⟩ ⟨1, 0⟩ = some worldAcceptW ∧
    defaultFilterShouldCollide (maskedFixtureW 0) (maskedFixtureW 1) = false ∧
    (findNewContactsPair opsEval worldRejectW ⟨0, 0⟩ ⟨1, 0⟩).map
        (fun w => w.contact_count) = some 1 := by
  refine ⟨rfl, rfl, rfl, rfl, rfl⟩

/-- Claim C7 fails on the code: `World::destroy_body` asserts that the world
IS locked, so it panics on an unlocked world (the normal caller state) and
proceeds while the world is locked during `step()` - the opposite of the
claim; `Body::set_body_type` checks the lock in the stated direction. -/
theorem C7_destroy_body_lock_inverted :
    worldDestroyBody worldUnlockedW 0 = none ∧
    (worldDestroyBody worldLockedW 0).isSome = true ∧
    setBodyTypeW worldLockedW 0 .Dynamic = none ∧
    (setBodyTypeW worldUnlockedW 0 .Dynamic).isSome = true := by
  refine ⟨rfl, rfl, rfl, rfl⟩

section

attribute [local semireducible] Rat.add Rat.mul Rat.sub Rat.inv

/-- Claim C3 fails on the code: for a single-proxy tree and a tight AABB
[(5,5),(6,6)] outside the stored fat bound, `move_proxy` returns `true` but
stores the box whose UPPER corner is built from the tight LOWER corner and
whose lower corner absorbed the positive displacement, instead of the
claimed bound (lower inflated, upper inflated plus positive displacement).
The claimed bound is `specMoveFatAabb`, written from the claim text. -/
theorem C3_move_proxy_stored_bound_bug :
    DynTree.createProxy DynTree.empty ⟨⟨0, 0⟩, ⟨1, 1⟩⟩ 0 = some (0, treeOneProxy) ∧
    (DynTree.moveProxy treeOneProxy 0 ⟨⟨5, 5⟩, ⟨6, 6⟩⟩ ⟨1, 1⟩).map
        (fun r => (r.1, (r.2.getNode 0).map (fun n => n.aabb))) =
      some (true, some ⟨⟨69/10, 69/10⟩, ⟨51/10, 51/10⟩⟩) ∧
    specMoveFatAabb ⟨⟨5, 5⟩, ⟨6, 6⟩⟩ ⟨1, 1⟩ = ⟨⟨49/10, 49/10⟩, ⟨81/10, 81/10⟩⟩ ∧
    moveProxyFatAabb ⟨⟨5, 5⟩, ⟨6, 6⟩⟩ ⟨1, 1⟩ ≠ specMoveFatAabb ⟨⟨5, 5⟩, ⟨6, 6⟩⟩ ⟨1, 1⟩ := by
  refine ⟨by decide, by decide, by decide, by decide⟩

/-- Claim C4 fails on the code: after creating three proxies (ids 0, 1, 3),
removing proxy 1 - a leaf whose parent is not the root - panics: `remove_leaf`
writes the grandparent's own parent link to point at the sibling instead of
linking the sibling back, then the upward fix-up walk follows that corrupted
link to the sibling leaf and unwraps its missing children.  The same panic
makes every removal (and every relocating move) under a grandparent abort, so
no tree invariant can survive an arbitrary operation sequence.  The first
conjunct shows the three creations themselves succeed. -/
theorem C4_remove_proxy_panics :
    ((((DynTree.createProxy DynTree.empty ⟨⟨0, 0⟩, ⟨1, 1⟩⟩ 0).bind
        (fun r => DynTree.createProxy r.2 ⟨⟨10, 0⟩, ⟨11, 1⟩⟩ 1)).bind
        (fun r => DynTree.createProxy r.2 ⟨⟨20, 0⟩, ⟨21, 1⟩⟩ 2)).map (fun r => r.1)) =
      some 3 ∧
    ((((DynTree.createProxy DynTree.empty ⟨⟨0, 0⟩, ⟨1, 1⟩⟩ 0).bind
        (fun r => DynTree.createProxy r.2 ⟨⟨10, 0⟩, ⟨11, 1⟩⟩ 1)).bind
        (fun r => DynTree.createProxy r.2 ⟨⟨20, 0⟩, ⟨21, 1⟩⟩ 2)).bind
        (fun r => DynTree.removeProxy r.2 1)) = none := by
  refine ⟨by decide, by decide⟩

end

theorem hullScan_lt (ps : List Vec2) (base : Vec2) (ih : Nat) (B : Nat) :
    ∀ (rem j ie : Nat), ie < B → j + rem ≤ B → hullScan ps base ih rem j ie < B := by
  intro rem
  induction rem with
  | zero =>
    intro j ie hie _
    simpa [hullScan] using hie
  | succ r ihr =>
    intro j ie hie hj
    have hjB : j < B := by omega
    have hj1 : j + 1 + r ≤ B := by omega
    simp only [hullScan]
    split
    · exact ihr _ _ hjB hj1
    · split
      · exact ihr _ _ hjB hj1
      · split
        · exact ihr _ _ hjB hj1
        · exact ihr _ _ hie hj1

theorem hullLoop_none (ps : List Vec2) (h8 : ps.length ≤ 8) (h1 : 1 ≤ ps.length) :
    ∀ (fuel ih : Nat) (hull : List Nat), hullLoop ps ps.length fuel ih hull = none := by
  intro fuel
  induction fuel with
  | zero => intro ih hull; rfl
  | succ f ihf =>
    intro ih hull
    have hscan : hullScan ps (ps.getD ih Vec2.zero) ih (ps.length - 1) 1 0 < ps.length :=
      hullScan_lt ps (ps.getD ih Vec2.zero) ih ps.length (ps.length - 1) 1 0 h1 (by omega)
    simp only [hullLoop]
    rw [if_neg (by omega)]
    exact ihf _ _

theorem weldStep_length (vertices ps : List Vec2) (i : Nat) :
    (weldStep vertices ps i).length ≤ ps.length + 1 := by
  unfold weldStep
  dsimp only
  split <;> simp

theorem weld_foldl_length (vertices : List Vec2) :
    ∀ (l : List Nat) (ps : List Vec2),
      (l.foldl (weldStep vertices) ps).length ≤ ps.length + l.length := by
  intro l
  induction l with
  | nil => intro ps; simp
  | cons a l ihl =>
    intro ps
    have h1 := ihl (weldStep vertices ps a)
    have h2 := weldStep_length vertices ps a
    simp only [List.foldl_cons, List.length_cons]
    omega

theorem weldVertices_length_le (vertices : List Vec2) (n : Nat) :
    (weldVertices vertices n).length ≤ n := by
  have := weld_foldl_length vertices (List.range n) []
  simpa [weldVertices] using this

/-- Claim C2 fails on the code: `Polygon::new` can never terminate normally.
The gift-wrapping loop exits only when the next hull index equals the literal
10 (the source compares `ie == 10` where Box2D compares with the start index
`i0`), but hull candidate indices are always below the vertex count (at most
8), so after eight passes the in-loop `assert!(m < MAX_POLYGON_VERTICES)`
fails.  The degenerate inputs panic too (`assert` below 3 vertices,
`unreachable!()` after welding) instead of degrading to a 1-by-1 box.  Hence
construction panics for EVERY vertex list. -/
theorem C2_polygon_new_always_panics :
    ∀ (ops : RealOps) (vertices : List Vec2), polygonNew ops vertices = none := by
  intro ops vertices
  unfold polygonNew
  by_cases hgate : 3 ≤ vertices.length ∧ vertices.length ≤ MAX_POLYGON_VERTICES
  · rw [if_neg (not_not_intro hgate)]
    rw [if_neg (Nat.not_lt.mpr hgate.1)]
    dsimp only
    by_cases hps :
        (weldVertices vertices (min vertices.length MAX_POLYGON_VERTICES)).length < 3
    · rw [if_pos hps]
    · rw [if_neg hps]
      have hlen :
          (weldVertices vertices (min vertices.length MAX_POLYGON_VERTICES)).length ≤ 8 := by
        have := weldVertices_length_le vertices (min vertices.length MAX_POLYGON_VERTICES)
        have hm : min vertices.length MAX_POLYGON_VERTICES ≤ 8 := by
          simp only [MAX_POLYGON_VERTICES]
          omega
        omega
      rw [hullLoop_none _ hlen (by omega)]
  · rw [if_pos hgate]

section

attribute [local semireducible] Rat.add Rat.mul Rat.sub Rat.inv

/-- Claim C5 fails on the code: `Simplex::read_cache` never loads the cached
simplex.  Its copy loop runs over a slice of length `self.count` - zero for
the default simplex every caller passes - instead of `cache.count`, so for
ANY cache the result is the fresh single-vertex simplex built from vertex 0
of each proxy and the metric heuristic never executes.  The second conjunct
evaluates a cache holding two pairs whose recomputed metric matches the
stored one (so the claimed heuristic would keep it): the resulting simplex
still has count 1 with vertex indices (0,0). -/
theorem C5_read_cache_ignores_cache :
    (∀ (ops : RealOps) (cache : SimpleCacheM) (proxyA : DistanceProxyM) (xfA : Transform)
        (proxyB : DistanceProxyM) (xfB : Transform),
      SimplexM.readCache ops SimplexM.defaultSimplex cache proxyA xfA proxyB xfB =
        if cache.count ≤ 3 then
          freshSimplexRead SimplexM.defaultSimplex proxyA xfA proxyB xfB
        else none) ∧
    (SimplexM.readCache opsEval SimplexM.defaultSimplex cacheC5 proxyC5A
        Transform.identity proxyC5B Transform.identity).map
      (fun s => (s.count, s.v1.index_a, s.v1.index_b)) = some (1, 0, 0) := by
  constructor
  · intro ops cache proxyA xfA proxyB xfB
    by_cases h : cache.count ≤ 3
    · rw [if_pos h]
      unfold SimplexM.readCache
      rw [if_neg (not_not_intro h)]
      rfl
    · rw [if_neg h]
      unfold SimplexM.readCache
      rw [if_pos h]
  · decide

end

/-- normalizing a sweep twice gives the same sweep as normalizing once. -/
theorem SweepM.normalize_idem (ops : RealOps) (s : SweepM) :
    (s.normalize ops).normalize ops = s.normalize ops := by
  unfold SweepM.normalize
  by_cases hp : ops.piTimes2 = 0
  · simp [hp]
  · have hdiv :
        (s.a0 - ops.piTimes2 * ((⌊s.a0 / ops.piTimes2⌋ : ℤ) : ℚ)) / ops.piTimes2
          = s.a0 / ops.piTimes2 - ((⌊s.a0 / ops.piTimes2⌋ : ℤ) : ℚ) := by
      rw [sub_div, mul_div_cancel_left₀ _ hp]
    have key :
        ⌊(s.a0 - ops.piTimes2 * ((⌊s.a0 / ops.piTimes2⌋ : ℤ) : ℚ)) / ops.piTimes2⌋ = (0 : ℤ) := by
      rw [hdiv, Int.floor_sub_int, sub_self]
    simp [key]

/-- C9: time_of_impact uses target = max(linearSlop, totalRadius - 3·linearSlop)
and tolerance = 0.25·linearSlop, folds both sweep angles together (a0 lands in
[0, 2·pi) and a moves by the same shift, so pre-normalizing the inputs is a
no-op), hands the push-back cap MAX_POLYGON_VERTICES = 8, the root-find cap 50
and the outer cap 20 to its loops, the capped inner loops stop without further
changes, and an outer iteration that exhausts the cap returns state Failed with
the current best t1. -/
theorem C9_toi_contract :
    (∀ (ops : RealOps) (input : TOIInputM),
      timeOfImpact ops input =
        timeOfImpact ops
          { input with
            sweep_a := input.sweep_a.normalize ops
            sweep_b := input.sweep_b.normalize ops }) ∧
    (∀ (ops : RealOps) (s : SweepM), 0 < ops.pi →
      0 ≤ (s.normalize ops).a0 ∧ (s.normalize ops).a0 < ops.piTimes2 ∧
        (s.normalize ops).a - (s.normalize ops).a0 = s.a - s.a0) ∧
    (∀ (ops : RealOps) (input : TOIInputM),
      timeOfImpact ops input =
        if ¬ max linearSlop (input.proxy_a.radius + input.proxy_b.radius - 3 * linearSlop) >
            1 / 4 * linearSlop then none
        else
          toiOuterLoop ops input.proxy_a input.proxy_b (input.sweep_a.normalize ops)
            (input.sweep_b.normalize ops)
            (max linearSlop (input.proxy_a.radius + input.proxy_b.radius - 3 * linearSlop))
            (1 / 4 * linearSlop) input.max 8 50 20 SimpleCacheM.defaultCache 0) ∧
    (∀ (ops : RealOps) (fcn : SepFn) (target tol maxT : ℚ) (rootCap : Nat) (t1 t2 : ℚ),
      toiInnerLoop ops fcn target tol maxT rootCap 0 t1 t2 = some (.cont t1)) ∧
    (∀ (ops : RealOps) (fcn : SepFn) (ia ib : Nat) (target tol : ℚ) (rootCap k : Nat)
        (a1 a2 s1 s2 : ℚ),
      toiRootFind ops fcn ia ib target tol rootCap 0 k a1 a2 s1 s2 = some none) ∧
    (∀ (ops : RealOps) (proxyA proxyB : DistanceProxyM) (sweepA sweepB : SweepM)
        (target tol maxT : ℚ) (pushCap rootCap : Nat) (cache cache2 : SimpleCacheM)
        (t1 t1n : ℚ) (fuel : Nat),
      toiOuterBody ops proxyA proxyB sweepA sweepB target tol maxT pushCap rootCap cache t1 =
          some (.cont cache2 t1n) →
        toiOuterLoop ops proxyA proxyB sweepA sweepB target tol maxT pushCap rootCap
            (fuel + 1) cache t1 =
          if fuel = 0 then some ⟨.Failed, t1n⟩
          else
            toiOuterLoop ops proxyA proxyB sweepA sweepB target tol maxT pushCap rootCap
              fuel cache2 t1n) := by
  refine ⟨?_, ?_, ?_, ?_, ?_, ?_⟩
  · intro ops input
    simp [timeOfImpact, SweepM.normalize_idem]
  · intro ops s h
    have hp : (0 : ℚ) < ops.piTimes2 := by
      unfold RealOps.piTimes2; linarith
    refine ⟨?_, ?_, ?_⟩
    · show 0 ≤ s.a0 - ops.piTimes2 * ((⌊s.a0 / ops.piTimes2⌋ : ℤ) : ℚ)
      have h1 : ((⌊s.a0 / ops.piTimes2⌋ : ℤ) : ℚ) ≤ s.a0 / ops.piTimes2 := Int.floor_le _
      have h2 := mul_le_mul_of_nonneg_left h1 (le_of_lt hp)
      have h3 : ops.piTimes2 * (s.a0 / ops.piTimes2) = s.a0 := by
        field_simp
      linarith
    · show s.a0 - ops.piTimes2 * ((⌊s.a0 / ops.piTimes2⌋ : ℤ) : ℚ) < ops.piTimes2
      have h1 : s.a0 / ops.piTimes2 < ((⌊s.a0 / ops.piTimes2⌋ : ℤ) : ℚ) + 1 :=
        Int.lt_floor_add_one _
      have h2 := (div_lt_iff₀ hp).mp h1
      nlinarith
    · show s.a - ops.piTimes2 * ((⌊s.a0 / ops.piTimes2⌋ : ℤ) : ℚ) -
          (s.a0 - ops.piTimes2 * ((⌊s.a0 / ops.piTimes2⌋ : ℤ) : ℚ)) = s.a - s.a0
      ring
  · intro ops input
    rfl
  · intro ops fcn target tol maxT rootCap t1 t2
    rfl
  · intro ops fcn ia ib target tol rootCap k a1 a2 s1 s2
    rfl
  · intro ops proxyA proxyB sweepA sweepB target tol maxT pushCap rootCap cache cache2 t1 t1n fuel h
    simp only [toiOuterLoop]
    rw [h]
    rfl

section

attribute [local semireducible] Rat.add Rat.mul Rat.sub Rat.inv

/-- C9 witness: the angle fold at pi = 3 on the sweep with angles (7, 9)
lands a0 at 1 in [0, 6) with the difference preserved, and on two separated
single-vertex proxies the final permitted outer iteration returns state
Failed with the advanced time t1 = 1. -/
theorem C9_toi_contract_witness :
    (0 ≤ (sweepW9f.normalize opsW9).a0 ∧ (sweepW9f.normalize opsW9).a0 < opsW9.piTimes2 ∧
      (sweepW9f.normalize opsW9).a - (sweepW9f.normalize opsW9).a0 =
        sweepW9f.a - sweepW9f.a0) ∧
    toiOuterLoop opsW9 proxyW9A proxyW9B sweepW9A sweepW9B 1 (1 / 800) 1 8 50 1
      SimpleCacheM.defaultCache 0 = some ⟨.Failed, 1⟩ := by
  constructor
  · exact C9_toi_contract.2.1 opsW9 sweepW9f (by decide)
  · have h := C9_toi_contract.2.2.2.2.2 opsW9 proxyW9A proxyW9B sweepW9A sweepW9B
      1 (1 / 800) 1 8 50 SimpleCacheM.defaultCache cacheW9 0 1 0 (by decide)
    simpa using h

end
